import Mathlib

/-!
Verification development for the `wptc-reverts` bot (`src/index.ts`).

The whole per-event pipeline of the bot lives in the `mediawiki.recentchange`
handler of `WPTCReverts.start` (src/index.ts lines 67-130):
pre-filters (wiki, event type, monitored pages, bot exemptions, vandalism
keywords), four revert-tool summary signatures given as JavaScript regular
expressions, a stripping pass that removes every signature and the residual
"(talk)" artifacts, and a tweet formatter with a 280-character budget in
which the final URL is counted as 24 characters.

The signature patterns use only literals, single-character classes,
one-or-more quantifiers over single-character classes (greedy `.+` `\d+`
and lazy `.+?`), optional groups, alternation and the end anchor `$`,
so a small CPS backtracking matcher reproduces the JavaScript matching
semantics exactly (alternatives tried left first, greedy prefers longer,
lazy prefers shorter, first success wins).  All patterns are anchored with
`^` and carry no `m` flag, hence they can only match at position 0; the
anchored `g`-flag `replace` therefore removes at most the one match at
position 0, which is what `replaceTop` does.  Unanchored `g`-flag
`replace` (the "(talk)" cleanup, the template substitutions and the
`https:.+$` rewrite) is the left-to-right scan `replaceAllRE`, including
JavaScript's `$`-expansion of the replacement string (`$$`, `$&`,
dollar-backquote, dollar-quote; the replaced patterns have no capture
groups, so `$<digit>` stays literal, as in JavaScript).

Strings are modelled as their lists of characters; all inputs relevant to
the claims are ASCII, where JavaScript's UTF-16 `length` agrees with the
character count.  The cheerio HTML-to-text extraction applied to
`change.parsedcomment` is modelled as the identity, which is exact for
plain-text summaries (no markup, no entities); every claim is settled on
plain-text summaries.
-/

/-- Abstract syntax of the fragment of JavaScript regular expressions used
by `src/index.ts`: literals, single-character classes, greedy/lazy
one-or-more over a single-character class, greedy option, alternation,
sequencing and the `$` anchor. -/
inductive RE : Type where
  | eps : RE
  | lit : List Char → RE
  | cls1 : (Char → Bool) → RE
  | plusG : (Char → Bool) → RE
  | plusL : (Char → Bool) → RE
  | opt : RE → RE
  | alt : RE → RE → RE
  | seq : RE → RE → RE
  | eos : RE

/-- Try the continuation after dropping each listed number of characters,
first success wins (backtracking order). -/
def tryFrom (k : List Char → Option (List Char)) (s : List Char) :
    List Nat → Option (List Char)
  | [] => none
  | i :: is => Option.orElse (k (s.drop i)) (fun _ => tryFrom k s is)

/-- CPS backtracking matcher.  `matchRE r s k` attempts to match `r` at the
start of `s` and hands the unconsumed suffix to `k`; the first success in
JavaScript's preference order wins.  Greedy `+` tries the longest run of
class characters first, lazy `+` the shortest, `|` tries the left branch
first, `?` tries to consume first. -/
def matchRE : RE → List Char → (List Char → Option (List Char)) → Option (List Char)
  | .eps, s, k => k s
  | .lit l, s, k => if List.isPrefixOf l s then k (s.drop l.length) else none
  | .cls1 p, s, k =>
    match s with
    | [] => none
    | c :: cs => if p c then k cs else none
  | .plusG p, s, k =>
    tryFrom k s (((List.range (s.takeWhile p).length).map (fun i => i + 1)).reverse)
  | .plusL p, s, k =>
    tryFrom k s ((List.range (s.takeWhile p).length).map (fun i => i + 1))
  | .opt r, s, k => Option.orElse (matchRE r s k) (fun _ => k s)
  | .alt a b, s, k => Option.orElse (matchRE a s k) (fun _ => matchRE b s k)
  | .seq a b, s, k => matchRE a s (fun s2 => matchRE b s2 k)
  | .eos, s, k => if s.isEmpty then k s else none

/-- `regex.test(s)` for a `^`-anchored pattern: does it match at position 0. -/
def testRE (r : RE) (s : List Char) : Bool :=
  (matchRE r s some).isSome

/-- `regex.test(s)` for an unanchored pattern: does it match starting at
some position. -/
def testAnywhere (r : RE) : List Char → Bool
  | [] => (matchRE r [] some).isSome
  | c :: cs => (matchRE r (c :: cs) some).isSome || testAnywhere r cs

/-- `s.replace(pattern, "")` for a `^`-anchored `g`-flag pattern: without
the `m` flag `^` only matches at position 0, so at most the one (nonempty)
match at position 0 is removed. -/
def replaceTop (r : RE) (s : List Char) : List Char :=
  match matchRE r s some with
  | some rest => if rest.length < s.length then rest else s
  | none => s

/-- JavaScript `$`-expansion of a replacement string: `$$` is a dollar,
`$&` the matched text, dollar-backquote the text before the match,
dollar-quote the text after it; anything else (including `$<digit>`, since
the replaced patterns have no capture groups) stays literal. -/
def expandRepl (pre mat post : List Char) : List Char → List Char
  | [] => []
  | c :: rest =>
    if c = '$' then
      match rest with
      | [] => [c]
      | d :: rest2 =>
        if d = '$' then '$' :: expandRepl pre mat post rest2
        else if d = '&' then mat ++ expandRepl pre mat post rest2
        else if d = Char.ofNat 96 then pre ++ expandRepl pre mat post rest2
        else if d = Char.ofNat 39 then post ++ expandRepl pre mat post rest2
        else c :: d :: expandRepl pre mat post rest2
    else c :: expandRepl pre mat post rest

/-- Left-to-right scan of an unanchored `g`-flag `replace`: at each
position attempt a match; on a nonempty match emit the expanded
replacement and continue after the match, on an empty match emit the
expanded replacement, keep the character and advance one position (as
JavaScript does), otherwise keep the character.  `pre` is the already
scanned prefix of the original string (used by `$`-expansion).  The
recursion is structural on a fuel argument so that the kernel can
evaluate it; any fuel above the length of the remaining text is enough
and never runs out. -/
def replAllFrom (r : RE) (repl : List Char) : Nat → List Char → List Char → List Char
  | 0, _, _ => []
  | _ + 1, pre, [] =>
    match matchRE r [] some with
    | some _ => expandRepl pre [] [] repl
    | none => []
  | fuel + 1, pre, c :: cs =>
    match matchRE r (c :: cs) some with
    | some rest =>
      if rest.length < cs.length + 1 then
        expandRepl pre ((c :: cs).take (cs.length + 1 - rest.length)) rest repl
          ++ replAllFrom r repl fuel (pre ++ (c :: cs).take (cs.length + 1 - rest.length)) rest
      else
        expandRepl pre [] (c :: cs) repl ++ c :: replAllFrom r repl fuel (pre ++ [c]) cs
    | none => c :: replAllFrom r repl fuel (pre ++ [c]) cs

/-- `s.replace(pattern, repl)` for an unanchored `g`-flag pattern. -/
def replaceAllRE (r : RE) (repl s : List Char) : List Char :=
  replAllFrom r repl (s.length + 1) [] s

/-- `String.prototype.includes`: does `pat` occur as a contiguous substring. -/
def containsSub (pat : List Char) : List Char → Bool
  | [] => List.isPrefixOf pat []
  | c :: cs => List.isPrefixOf pat (c :: cs) || containsSub pat cs

/-- Decimal representation of a natural number (fuel variant; any fuel
above the number is enough). -/
def natToDecAux : Nat → Nat → List Char
  | 0, _ => []
  | fuel + 1, n =>
    if n < 10 then [Nat.digitChar n]
    else natToDecAux fuel (n / 10) ++ [Nat.digitChar (n % 10)]

/-- Decimal representation of a natural number, as JavaScript renders an
integer in a template string. -/
def natToDec (n : Nat) : List Char :=
  natToDecAux (n + 1) n

/-- JavaScript `.`: any character except a line terminator. -/
def dotP (c : Char) : Bool :=
  !(c = Char.ofNat 10 || c = Char.ofNat 13 || c = Char.ofNat 8232 || c = Char.ofNat 8233)

/-- JavaScript `\d`. -/
def digitP (c : Char) : Bool := c.isDigit

/-- A case-insensitive literal (the `i` flag), as a sequence of
single-character classes. -/
def litCI (s : String) : RE :=
  s.data.foldr (fun c r => RE.seq (RE.cls1 (fun d => d.toLower = c)) r) RE.eps

/-! ## The patterns of `src/index.ts` -/

/-- `/rv[vd]|vand(alism)?/gi` (line 75), the vandalism-keyword exclusion;
tested unanchored on the raw comment. -/
def vandalRE : RE :=
  RE.alt (RE.seq (litCI "rv") (RE.cls1 (fun d => d.toLower = 'v' || d.toLower = 'd')))
    (RE.seq (litCI "vand") (RE.opt (litCI "alism")))

/-- Rollback (line 83):
`/^Reverted \d+ edits? by .+? \(talk\) to last version by .+? \(talk\)/g`. -/
def rollbackRE : RE :=
  RE.seq (.lit ("Reverted ").data) (RE.seq (.plusG digitP) (RE.seq (.lit (" edit").data)
    (RE.seq (.opt (.lit ("s").data)) (RE.seq (.lit (" by ").data) (RE.seq (.plusL dotP)
      (RE.seq (.lit (" (talk) to last version by ").data)
        (RE.seq (.plusL dotP) (.lit (" (talk)").data))))))))

/-- Undo (line 85): `/^Undid revision .+? by .+? \(talk\) ?/g`. -/
def undoRE : RE :=
  RE.seq (.lit ("Undid revision ").data) (RE.seq (.plusL dotP) (RE.seq (.lit (" by ").data)
    (RE.seq (.plusL dotP) (RE.seq (.lit (" (talk)").data) (.opt (.lit (" ").data))))))

/-- RedWarn (line 87): `/^Reverting edit\(s\) by .+ to rev. .+ \d+ by .+?(: ?)?/g`
(the `.` after `rev` is an unescaped any-character). -/
def redwarnRE : RE :=
  RE.seq (.lit ("Reverting edit(s) by ").data) (RE.seq (.plusG dotP)
    (RE.seq (.lit (" to rev").data) (RE.seq (.cls1 dotP) (RE.seq (.lit (" ").data)
      (RE.seq (.plusG dotP) (RE.seq (.lit (" ").data) (RE.seq (.plusG digitP)
        (RE.seq (.lit (" by ").data) (RE.seq (.plusL dotP)
          (.opt (RE.seq (.lit (":").data) (.opt (.lit (" ").data)))))))))))))

/-- Twinkle (line 89): `/^Reverted \d+ edits? by .+ (talk)(: ?|$)/g`.
The `(talk)` is an unescaped group, i.e. the literal text `talk` after a
literal space, not the parenthesized `(talk)`. -/
def twinkleRE : RE :=
  RE.seq (.lit ("Reverted ").data) (RE.seq (.plusG digitP) (RE.seq (.lit (" edit").data)
    (RE.seq (.opt (.lit ("s").data)) (RE.seq (.lit (" by ").data) (RE.seq (.plusG dotP)
      (RE.seq (.lit (" talk").data)
        (RE.alt (RE.seq (.lit (":").data) (.opt (.lit (" ").data))) RE.eos)))))))

/-- The ordered signature list of line 81-90. -/
def signatures : List RE := [rollbackRE, undoRE, redwarnRE, twinkleRE]

/-- Residual talk-link cleanup (line 102): `/ ?\(talk\)/g`. -/
def cleanupRE : RE :=
  RE.seq (.opt (.lit (" ").data)) (.lit ("(talk)").data)

/-- Link rewrite of the length computation (line 113): `/https:.+$/g`. -/
def httpsRE : RE :=
  RE.seq (.lit ("https:").data) (RE.seq (.plusG dotP) RE.eos)

/-! ## The per-event pipeline -/

/-- The fields of a `mediawiki.recentchange` event that the handler reads
(`change.wiki`, `change.type`, `change.title`, `change.comment`,
`change.parsedcomment`, `change.user`, `change.revision.new`). -/
structure RecentChange where
  wiki : String
  type : String
  title : String
  comment : String
  parsedcomment : String
  user : String
  revNew : Nat
deriving DecidableEq

/-- Outcome of the classification part of the handler: either the event is
dropped, or it qualifies with the data the formatter consumes. -/
inductive ClassificationResult : Type where
  | notQualifying : ClassificationResult
  | qualifying : (user title : String) → (revNew : Nat) → (reason : String) →
      ClassificationResult
deriving DecidableEq

/-- Line 14: the tweet URL template. -/
def TWEET_URL : String := "https://en.wikipedia.org/wiki/Special:Diff/{{{diff}}}"

/-- Lines 15-16: the message template for a nonempty stripped summary. -/
def TWEET_TEXT : String :=
  "New revert by {{{user}}} on \"{{{title}}}\": \"{{{summary}}}\" " ++ TWEET_URL

/-- Lines 17-18: the message template for an empty stripped summary. -/
def TWEET_TEXT_EMPTY : String :=
  "New revert by {{{user}}} on \"{{{title}}}\" with no given reason. " ++ TWEET_URL

/-- Lines 95-102: apply every signature's (anchored, hence top-only)
removal in order, then the `/ ?\(talk\)/g` cleanup. -/
def stripAllL (s : List Char) : List Char :=
  replaceAllRE cleanupRE [] (signatures.foldl (fun acc sig => replaceTop sig acc) s)

/-- `stripAll` on strings. -/
def stripAll (s : String) : String :=
  ⟨stripAllL s.data⟩

/-- Line 92: `signatures.some(v => v.test(summary))`.  The regex objects
are freshly created for each event and each is tested at most once, so the
`g`-flag `lastIndex` state never carries over. -/
def sigTest (s : String) : Bool :=
  signatures.any (fun sig => testRE sig s.data)

/-- Lines 67-102 up to the tweet: the classification part of the
`recentchange` handler, for a well-formed event.  The cheerio text
extraction of `parsedcomment` is the identity on plain text. -/
def classify (pages : List String) (c : RecentChange) : ClassificationResult :=
  if c.wiki != "enwiki" || c.type != "edit" then .notQualifying
  else if !(pages.contains c.title) then .notQualifying
  else if containsSub (("([[WP:HG|HG]])").data) c.comment.data || c.user == "ClueBot NG" then
    .notQualifying
  else if testAnywhere vandalRE c.comment.data then .notQualifying
  else if !(sigTest c.parsedcomment) then .notQualifying
  else .qualifying c.user c.title c.revNew (stripAll c.parsedcomment)

/-- `s.replace(/pat/g, repl)` where `pat` is a literal pattern (all
characters of the template placeholders are literal in a JavaScript
regex). -/
def jsReplaceAll (pat repl s : String) : String :=
  ⟨replaceAllRE (.lit pat.data) repl.data s.data⟩

/-- `s.substr(0, n)` with a JavaScript (possibly negative) length. -/
def jsSubstr (s : String) (n : Int) : String :=
  ⟨s.data.take n.toNat⟩

/-- Lines 109-113: the space left for the summary once the template with
an empty summary is rendered and the URL is counted as 24 characters. -/
def nonSummaryLength (user title : String) : Int :=
  280 - Int.ofNat (jsReplaceAll ("{{{summary}}}") ""
    (jsReplaceAll ("{{{title}}}") title
      (jsReplaceAll ("{{{user}}}") user TWEET_TEXT))
    |> fun t => (⟨replaceAllRE httpsRE (List.replicate 24 '-') t.data⟩ : String)).length

/-- Lines 108-129: the tweet text handed to `twitter.v1.tweet`, for a
qualifying event with stripped summary `stripped`. -/
def formatTweet (user title : String) (revNew : Nat) (stripped : String) : String :=
  if stripped.length > 0 then
    jsReplaceAll ("{{{diff}}}") (⟨natToDec revNew⟩ : String)
      (jsReplaceAll ("{{{summary}}}") (jsSubstr stripped (nonSummaryLength user title))
        (jsReplaceAll ("{{{title}}}") title
          (jsReplaceAll ("{{{user}}}") user TWEET_TEXT)))
  else
    jsReplaceAll ("{{{diff}}}") (⟨natToDec revNew⟩ : String)
      (jsReplaceAll ("{{{title}}}") title
        (jsReplaceAll ("{{{user}}}") user TWEET_TEXT_EMPTY))

/-- The whole per-event handler: classification followed by formatting. -/
def handleChange (pages : List String) (c : RecentChange) : Option String :=
  match classify pages c with
  | .notQualifying => none
  | .qualifying u t rev reason => some (formatTweet u t rev reason)

/-- The driver: the stream delivers events one at a time; the emitted
tweets in order. -/
def runStream (pages : List String) (events : List RecentChange) : List String :=
  events.filterMap (handleChange pages)

/-- The code's own accounting of a message length: the `https:.+$` tail
replaced by 24 characters (line 113), then the character count. -/
def linkAdjustedLength (s : String) : Nat :=
  (⟨replaceAllRE httpsRE (List.replicate 24 '-') s.data⟩ : String).length

/-! ## The handler on raw events (dynamic fields)

A `mediawiki.recentchange` record is a dynamically typed JavaScript object:
any field may be missing (`undefined`).  `rawHandle` transliterates the
handler with that in mind: comparisons against `undefined` are just false,
`pages.includes(undefined)` is false, but `change.comment.includes(...)`
(line 73), `cheerio.load(change.parsedcomment)` (line 78) and
`change.revision.new` (line 105) throw on a missing field.  The handler
body contains no `try`/`catch`, so such an error escapes the handler; the
escape is modelled by `Except.error`. -/

structure RawChange where
  wiki : Option String
  type : Option String
  title : Option String
  comment : Option String
  parsedcomment : Option String
  user : Option String
  revNew : Option Nat
deriving DecidableEq

def rawHandle (pages : List String) (c : RawChange) : Except String (Option String) :=
  if c.wiki ≠ some "enwiki" ∨ c.type ≠ some "edit" then .ok none
  else
    match c.title with
    | none => .ok none
    | some title =>
      if !(pages.contains title) then .ok none
      else
        match c.comment with
        | none => .error "TypeError: Cannot read properties of undefined (reading includes)"
        | some comment =>
          if containsSub (("([[WP:HG|HG]])").data) comment.data
              || c.user == some "ClueBot NG" then .ok none
          else if testAnywhere vandalRE comment.data then .ok none
          else
            match c.parsedcomment with
            | none => .error "cheerio.load() expects a string"
            | some pc =>
              if !(sigTest pc) then .ok none
              else
                match c.revNew with
                | none => .error "TypeError: Cannot read properties of undefined (reading new)"
                | some rev =>
                  .ok (some (formatTweet (c.user.getD "undefined") title rev (stripAll pc)))

/-! ## Helper predicates for the theorems -/

/-- Does the string start with a space, the literal `talk`, and then either
nothing or a colon — the tail shape the (broken) Twinkle pattern needs. -/
def talkColonAt (s : List Char) : Bool :=
  List.isPrefixOf ((" talk").data) s
    && (decide (s.drop 5 = []) || List.isPrefixOf ((":").data) (s.drop 5))

/-- Does some suffix of the string have the `talkColonAt` shape. -/
def hasTalkColon : List Char → Bool
  | [] => talkColonAt []
  | c :: cs => talkColonAt (c :: cs) || hasTalkColon cs

/-- A string that interacts with no template machinery: it contains no
brace (so no placeholder can occur in it or straddle its borders), no
dollar (so `$`-expansion leaves it alone) and no `https:` (so the URL
rewrite cannot start inside it). -/
def cleanStr (s : String) : Prop :=
  (∀ c ∈ s.data, c ≠ '{') ∧ (∀ c ∈ s.data, c ≠ '$') ∧
    containsSub (("https:").data) s.data = false

/-- No character of the replacement is a dollar, so `$`-expansion leaves
it unchanged. -/
def noDollar (repl : List Char) : Prop :=
  ∀ c ∈ repl, c ≠ '$'

/-- No match of `r` starts inside `a` when the text continues with
`rest`. -/
def noStart (r : RE) (a rest : List Char) : Prop :=
  ∀ a₁ a₂, a = a₁ ++ a₂ → a₂ ≠ [] → matchRE r (a₂ ++ rest) some = none

/-- No match of `r` starts at any position of `s` (the empty final
position included). -/
def noMatchAll (r : RE) (s : List Char) : Prop :=
  ∀ a₁ a₂, s = a₁ ++ a₂ → matchRE r a₂ some = none

/-! ## Toolkit lemmas -/

set_option maxRecDepth 100000

theorem expandRepl_noDollar (pre mat post : List Char) {repl : List Char}
    (h : noDollar repl) : expandRepl pre mat post repl = repl := by
  induction repl with
  | nil => rfl
  | cons c rest ih =>
    have hc : c ≠ '$' := h c (List.mem_cons_self c rest)
    have hrest : noDollar rest := fun d hd => h d (List.mem_cons_of_mem c hd)
    rw [expandRepl.eq_def]
    simp [hc, ih hrest]

theorem replAllFrom_fuel_irrel (r : RE) (repl : List Char) :
    ∀ f₁ f₂ pre s, s.length < f₁ → s.length < f₂ →
      replAllFrom r repl f₁ pre s = replAllFrom r repl f₂ pre s := by
  intro f₁
  induction f₁ with
  | zero => intro f₂ pre s h1 h2; omega
  | succ f ih =>
    intro f₂ pre s h1 h2
    match f₂ with
    | 0 => omega
    | f₂' + 1 =>
      match s with
      | [] => rfl
      | c :: cs =>
        simp only [replAllFrom]
        cases hm : matchRE r (c :: cs) some with
        | none =>
          exact congrArg (c :: ·) (ih f₂' (pre ++ [c]) cs (by simp at h1; omega)
            (by simp at h2; omega))
        | some rest =>
          by_cases hlt : rest.length < cs.length + 1
          · simp only [if_pos hlt]
            rw [ih f₂' _ rest (by simp at h1; omega) (by simp at h2; omega)]
          · simp only [if_neg hlt]
            exact congrArg (fun x => expandRepl pre [] (c :: cs) repl ++ c :: x)
              (ih f₂' (pre ++ [c]) cs (by simp at h1; omega) (by simp at h2; omega))

theorem replAllFrom_pre_irrel (r : RE) {repl : List Char} (hd : noDollar repl) :
    ∀ fuel pre pre' s, replAllFrom r repl fuel pre s = replAllFrom r repl fuel pre' s := by
  intro fuel
  induction fuel with
  | zero => intros; rfl
  | succ f ih =>
    intro pre pre' s
    match s with
    | [] =>
      simp only [replAllFrom]
      cases matchRE r [] some <;> simp [expandRepl_noDollar _ _ _ hd]
    | c :: cs =>
      simp only [replAllFrom]
      cases hm : matchRE r (c :: cs) some with
      | none => exact congrArg (c :: ·) (ih (pre ++ [c]) (pre' ++ [c]) cs)
      | some rest =>
        by_cases hlt : rest.length < cs.length + 1
        · simp only [if_pos hlt]
          rw [expandRepl_noDollar _ _ _ hd, expandRepl_noDollar _ _ _ hd]
          exact congrArg (repl ++ ·)
            (ih (pre ++ List.take (cs.length + 1 - rest.length) (c :: cs))
              (pre' ++ List.take (cs.length + 1 - rest.length) (c :: cs)) rest)
        · simp only [if_neg hlt]
          rw [expandRepl_noDollar _ _ _ hd, expandRepl_noDollar _ _ _ hd]
          exact congrArg (fun x => repl ++ c :: x) (ih (pre ++ [c]) (pre' ++ [c]) cs)

theorem containsSub_false_no_pfx {pat : List Char} :
    ∀ a₁ a₂ : List Char, containsSub pat (a₁ ++ a₂) = false →
      List.isPrefixOf pat a₂ = false := by
  intro a₁
  induction a₁ with
  | nil =>
    intro a₂ h
    cases a₂ with
    | nil => simpa [containsSub] using h
    | cons c cs =>
      simp only [List.nil_append, containsSub, Bool.or_eq_false_iff] at h
      exact h.1
  | cons c a₁' ih =>
    intro a₂ h
    simp only [List.cons_append, containsSub, Bool.or_eq_false_iff] at h
    exact ih a₂ h.2

theorem containsSub_true_of (pat : List Char) :
    ∀ a₁ a₂ : List Char, List.isPrefixOf pat a₂ = true →
      containsSub pat (a₁ ++ a₂) = true := by
  intro a₁
  induction a₁ with
  | nil =>
    intro a₂ h
    cases a₂ with
    | nil => simpa [containsSub] using h
    | cons c cs => simp [containsSub, h]
  | cons c a₁' ih =>
    intro a₂ h
    simp [containsSub, ih a₂ h]

theorem matchRE_lit_eq (L s : List Char) (k : List Char → Option (List Char)) :
    matchRE (.lit L) s k =
      if List.isPrefixOf L s then k (s.drop L.length) else none := rfl

theorem matchRE_lit_none {L s : List Char} (h : List.isPrefixOf L s = false) :
    matchRE (.lit L) s some = none := by
  rw [matchRE_lit_eq, h]
  simp

theorem matchRE_seq_head_some {L : List Char} {r' : RE} {s res : List Char}
    {k : List Char → Option (List Char)}
    (h : matchRE (.seq (.lit L) r') s k = some res) :
    List.isPrefixOf L s = true ∧ matchRE r' (s.drop L.length) k = some res := by
  by_cases hp : List.isPrefixOf L s
  · refine ⟨hp, ?_⟩
    simpa [matchRE, matchRE_lit_eq, hp] using h
  · simp only [Bool.not_eq_true] at hp
    rw [show matchRE (.seq (.lit L) r') s k
        = matchRE (.lit L) s (fun s2 => matchRE r' s2 k) from rfl,
      matchRE_lit_eq, hp] at h
    simp at h

theorem noStart_seq_lit {L : List Char} {r' : RE} {a rest : List Char}
    (h : noStart (.lit L) a rest) : noStart (.seq (.lit L) r') a rest := by
  intro a₁ a₂ ha hne
  have hl := h a₁ a₂ ha hne
  rw [matchRE_lit_eq] at hl
  by_cases hp : List.isPrefixOf L (a₂ ++ rest)
  · simp [hp] at hl
  · rw [show matchRE (.seq (.lit L) r') (a₂ ++ rest) some
        = matchRE (.lit L) (a₂ ++ rest) (fun s2 => matchRE r' s2 some) from rfl,
      matchRE_lit_eq]
    simp [hp]

theorem noStart_head {hc : Char} {L' a rest : List Char} (h : ∀ c ∈ a, c ≠ hc) :
    noStart (.lit (hc :: L')) a rest := by
  intro a₁ a₂ ha hne
  cases a₂ with
  | nil => exact absurd rfl hne
  | cons c t =>
    have hca : c ∈ a := ha ▸ List.mem_append_right a₁ (List.mem_cons_self c t)
    apply matchRE_lit_none
    simp only [List.cons_append, List.isPrefixOf, Bool.and_eq_false_iff]
    left
    simp [(h c hca).symm]

theorem suffix_containsSub {pat u a₂ : List Char} (hs : a₂ <:+ u)
    (hp : List.isPrefixOf pat a₂ = true) : containsSub pat u = true := by
  obtain ⟨a₁, rfl⟩ := hs
  exact containsSub_true_of pat a₁ a₂ hp

theorem noStart_var (c₀ : Char) {L u rest : List Char}
    (hr : rest.head? = some c₀)
    (hsub : containsSub L u = false)
    (hj : ∀ j, (hjl : j < L.length) → 1 ≤ j → L[j] ≠ c₀) :
    noStart (.lit L) u rest := by
  match rest, hr with
  | c₀ :: rest', rfl =>
    intro a₁ a₂ ha hne
    apply matchRE_lit_none
    by_contra hcon
    rw [Bool.not_eq_false] at hcon
    have hL : L <+: a₂ ++ (c₀ :: rest') := List.isPrefixOf_iff_prefix.mp hcon
    by_cases h2 : L.length ≤ a₂.length
    · have hpa : L <+: a₂ :=
        List.prefix_of_prefix_length_le hL (List.prefix_append a₂ (c₀ :: rest')) h2
      have : containsSub L u = true :=
        suffix_containsSub ⟨a₁, ha.symm⟩ (List.isPrefixOf_iff_prefix.mpr hpa)
      simp [this] at hsub
    · push_neg at h2
      have hlen1 : 1 ≤ a₂.length := List.length_pos.mpr hne
      have hidx := hL.getElem h2
      rw [List.getElem_append_right (Nat.le_refl a₂.length)] at hidx
      simp at hidx
      exact hj a₂.length h2 hlen1 hidx

theorem noStart_take {L a rest : List Char}
    (hsub : containsSub L (a ++ rest.take (L.length - 1)) = false) :
    noStart (.lit L) a rest := by
  intro a₁ a₂ ha hne
  apply matchRE_lit_none
  by_contra hcon
  rw [Bool.not_eq_false] at hcon
  have hL : L <+: a₂ ++ rest := List.isPrefixOf_iff_prefix.mp hcon
  have hlen1 : 1 ≤ a₂.length := List.length_pos.mpr hne
  have hlen2 : L.length ≤ a₂.length + rest.length := by
    have := hL.length_le
    simpa using this
  have hpa : L <+: a₂ ++ rest.take (L.length - 1) := by
    refine List.prefix_of_prefix_length_le hL ⟨rest.drop (L.length - 1), ?_⟩ ?_
    · rw [List.append_assoc, List.take_append_drop]
    · simp only [List.length_append, List.length_take]
      omega
  have : containsSub L (a ++ rest.take (L.length - 1)) = true := by
    refine suffix_containsSub ⟨a₁, ?_⟩ (List.isPrefixOf_iff_prefix.mpr hpa)
    rw [ha, List.append_assoc]
  simp [this] at hsub

theorem noMatchAll_lit {L s : List Char} (h : containsSub L s = false) :
    noMatchAll (.lit L) s := by
  intro a₁ a₂ ha
  exact matchRE_lit_none (containsSub_false_no_pfx a₁ a₂ (ha ▸ h))

theorem noStart_nil (r : RE) (rest : List Char) : noStart r [] rest := by
  intro a₁ a₂ h hne
  exact absurd (List.append_eq_nil.mp h.symm).2 hne

theorem noStart_append {r : RE} (a b rest : List Char)
    (ha : noStart r a (b ++ rest)) (hb : noStart r b rest) :
    noStart r (a ++ b) rest := by
  intro a₁ a₂ hsplit hne
  rcases List.append_eq_append_iff.mp hsplit with ⟨x, hx1, hx2⟩ | ⟨y, hy1, hy2⟩
  · exact hb x a₂ hx2 hne
  · cases y with
    | nil =>
      simp at hy2
      subst hy2
      exact hb [] a₂ rfl hne
    | cons yc yt =>
      have := ha a₁ (yc :: yt) hy1 (by simp)
      rw [hy2, List.append_assoc]
      exact this

theorem replAllFrom_skip (r : RE) (repl : List Char) :
    ∀ (a : List Char) (rest pre : List Char) (fuel : Nat),
      (a ++ rest).length < fuel → noStart r a rest →
      replAllFrom r repl fuel pre (a ++ rest) =
        a ++ replAllFrom r repl (fuel - a.length) (pre ++ a) rest := by
  intro a
  induction a with
  | nil => simp
  | cons c a' ih =>
    intro rest pre fuel hf hns
    match fuel with
    | 0 => simp at hf
    | f + 1 =>
      have hm : matchRE r ((c :: a') ++ rest) some = none :=
        hns [] (c :: a') rfl (by simp)
      rw [List.cons_append] at hm ⊢
      rw [show replAllFrom r repl (f + 1) pre (c :: (a' ++ rest))
          = c :: replAllFrom r repl f (pre ++ [c]) (a' ++ rest) by
        simp only [replAllFrom, hm]]
      have hns' : noStart r a' rest := by
        intro b₁ b₂ hb hne
        exact hns (c :: b₁) b₂ (by rw [hb]; rfl) hne
      rw [ih rest (pre ++ [c]) f (by simp at hf ⊢; omega) hns']
      simp only [List.cons_append, List.length_cons]
      have harith : f + 1 - (a'.length + 1) = f - a'.length := by omega
      rw [harith, List.append_cons pre c a']

theorem scan_id_aux {r : RE} (repl : List Char) {s : List Char} (h : noMatchAll r s) :
    ∀ fuel pre, s.length < fuel → replAllFrom r repl fuel pre s = s := by
  induction s with
  | nil =>
    intro fuel pre hf
    match fuel with
    | f + 1 =>
      have hm : matchRE r [] some = none := h [] [] rfl
      simp only [replAllFrom, hm]
  | cons c cs ih =>
    intro fuel pre hf
    match fuel with
    | 0 => simp at hf
    | f + 1 =>
      have hm : matchRE r (c :: cs) some = none := h [] (c :: cs) rfl
      simp only [replAllFrom, hm]
      have h' : noMatchAll r cs := fun a₁ a₂ ha => h (c :: a₁) a₂ (by rw [ha]; rfl)
      rw [ih h' f (pre ++ [c]) (by simp at hf; omega)]

theorem scan_id {r : RE} (repl : List Char) {s : List Char} (h : noMatchAll r s) :
    replaceAllRE r repl s = s :=
  scan_id_aux repl h (s.length + 1) [] (Nat.lt_succ_self _)

theorem scan_split {r : RE} {repl a rest : List Char} (hd : noDollar repl)
    (hns : noStart r a rest) :
    replaceAllRE r repl (a ++ rest) = a ++ replaceAllRE r repl rest := by
  unfold replaceAllRE
  rw [replAllFrom_skip r repl a rest [] ((a ++ rest).length + 1) (Nat.lt_succ_self _) hns]
  congr 1
  rw [replAllFrom_fuel_irrel r repl ((a ++ rest).length + 1 - a.length) (rest.length + 1)
      ([] ++ a) rest (by simp; omega) (Nat.lt_succ_self _)]
  exact replAllFrom_pre_irrel r hd _ ([] ++ a) [] rest

theorem scan_hit {r : RE} {repl s rest : List Char} (hd : noDollar repl)
    (hm : matchRE r s some = some rest) (hlt : rest.length < s.length) :
    replaceAllRE r repl s = repl ++ replaceAllRE r repl rest := by
  match s with
  | [] => simp at hlt
  | c :: cs =>
    unfold replaceAllRE
    have hlt' : rest.length < cs.length + 1 := by simpa using hlt
    rw [show (c :: cs).length + 1 = (cs.length + 1) + 1 by simp]
    simp only [replAllFrom, hm, if_pos hlt']
    rw [expandRepl_noDollar _ _ _ hd]
    congr 1
    rw [replAllFrom_fuel_irrel r repl (cs.length + 1) (rest.length + 1) _ rest hlt'
      (Nat.lt_succ_self _)]
    exact replAllFrom_pre_irrel r hd _ _ [] rest

theorem noStartHeadOf (hc : Char) {L a rest : List Char} (hL : L.head? = some hc)
    (h : ∀ c ∈ a, c ≠ hc) : noStart (.lit L) a rest := by
  match L, hL with
  | hc :: L', rfl => exact noStart_head h

theorem containsSub_head_free {hc : Char} {L' : List Char} :
    ∀ {u : List Char}, (∀ c ∈ u, c ≠ hc) → containsSub (hc :: L') u = false := by
  intro u
  induction u with
  | nil => intro h; simp [containsSub, List.isPrefixOf]
  | cons c cs ih =>
    intro h
    have hc1 : c ≠ hc := h c (List.mem_cons_self c cs)
    simp only [containsSub, Bool.or_eq_false_iff]
    constructor
    · simp only [List.isPrefixOf, Bool.and_eq_false_iff]
      left
      simp [Ne.symm hc1]
    · exact ih (fun d hd => h d (List.mem_cons_of_mem c hd))

theorem containsSubHeadOf (hc : Char) {L u : List Char} (hL : L.head? = some hc)
    (h : ∀ c ∈ u, c ≠ hc) : containsSub L u = false := by
  match L, hL with
  | hc :: L', rfl => exact containsSub_head_free h

theorem scan_lit_hit {L repl b : List Char} (hd : noDollar repl) (hne : L ≠ []) :
    replaceAllRE (.lit L) repl (L ++ b) = repl ++ replaceAllRE (.lit L) repl b := by
  apply scan_hit hd
  · rw [matchRE_lit_eq,
      if_pos (List.isPrefixOf_iff_prefix.mpr (List.prefix_append L b)), List.drop_left]
  · simp only [List.length_append]
    have : 0 < L.length := List.length_pos.mpr hne
    omega

theorem isPrefixOf_append_of {L s t : List Char} (h : List.isPrefixOf L s = true) :
    List.isPrefixOf L (s ++ t) = true :=
  List.isPrefixOf_iff_prefix.mpr
    ((List.isPrefixOf_iff_prefix.mp h).trans (List.prefix_append s t))

theorem containsSub_append_of {L : List Char} :
    ∀ {s : List Char} (t : List Char), containsSub L s = true →
      containsSub L (s ++ t) = true := by
  intro s
  induction s with
  | nil =>
    intro t h
    simp only [containsSub] at h
    cases t with
    | nil => simpa [containsSub] using h
    | cons c cs =>
      have hL : L = [] := by
        simpa using List.isPrefixOf_iff_prefix.mp h
      subst hL
      simp [containsSub, List.isPrefixOf]
  | cons c cs ih =>
    intro t h
    simp only [containsSub, Bool.or_eq_true] at h
    rcases h with h | h
    · simp only [List.cons_append, containsSub, Bool.or_eq_true]
      left
      exact isPrefixOf_append_of (t := t) h
    · simp [containsSub, ih t h]

theorem containsSub_take_false {L u : List Char} (h : containsSub L u = false) (n : Nat) :
    containsSub L (u.take n) = false := by
  by_contra hcon
  rw [Bool.not_eq_false] at hcon
  have := containsSub_append_of (u.drop n) hcon
  rw [List.take_append_drop] at this
  simp [this] at h

theorem digitChar_isDigit {n : Nat} (h : n < 10) : (Nat.digitChar n).isDigit = true := by
  interval_cases n <;> decide

theorem natToDecAux_digits :
    ∀ fuel n, ∀ c ∈ natToDecAux fuel n, c.isDigit = true := by
  intro fuel
  induction fuel with
  | zero => intro n c hc; simp [natToDecAux] at hc
  | succ f ih =>
    intro n c hc
    rw [natToDecAux] at hc
    by_cases h : n < 10
    · rw [if_pos h] at hc
      simp at hc
      rw [hc]
      exact digitChar_isDigit h
    · rw [if_neg h] at hc
      rcases List.mem_append.mp hc with hc | hc
      · exact ih (n / 10) c hc
      · simp at hc
        rw [hc]
        exact digitChar_isDigit (Nat.mod_lt n (by omega))

theorem natToDec_digits (n : Nat) : ∀ c ∈ natToDec n, c.isDigit = true :=
  natToDecAux_digits (n + 1) n

theorem isDigit_ne {c : Char} (h : c.isDigit = true) {d : Char}
    (hd : d.isDigit = false) : c ≠ d := by
  intro he
  rw [he, hd] at h
  exact Bool.false_ne_true h

theorem isDigit_dotP {c : Char} (h : c.isDigit = true) : dotP c = true := by
  unfold dotP
  by_contra hcon
  simp only [Bool.not_eq_true, Bool.not_eq_false'] at hcon
  simp only [Bool.or_eq_true, decide_eq_true_eq] at hcon
  rcases hcon with ((h1 | h1) | h1) | h1 <;> (rw [h1] at h; exact absurd h (by decide))

theorem revRange_head (m : Nat) :
    ((List.range (m + 1)).map (fun i => i + 1)).reverse
      = (m + 1) :: ((List.range m).map (fun i => i + 1)).reverse := by
  rw [List.range_succ, List.map_append, List.reverse_append]
  simp

theorem plusG_all_eos {s : List Char} (hd : ∀ c ∈ s, dotP c = true) (hne : s ≠ []) :
    matchRE (.seq (.plusG dotP) .eos) s some = some [] := by
  have htw : s.takeWhile dotP = s := List.takeWhile_eq_self_iff.mpr hd
  obtain ⟨m, hm⟩ : ∃ m, s.length = m + 1 := by
    cases s with
    | nil => exact absurd rfl hne
    | cons c cs => exact ⟨cs.length, rfl⟩
  show tryFrom (fun s2 => matchRE .eos s2 some) s
      (((List.range (s.takeWhile dotP).length).map (fun i => i + 1)).reverse) = some []
  rw [htw, hm, revRange_head]
  show Option.orElse (matchRE .eos (s.drop (m + 1)) some) _ = some []
  rw [← hm, List.drop_length]
  rfl

theorem matchRE_seq_lit_cons {L : List Char} {r' : RE} {s : List Char}
    {k : List Char → Option (List Char)} :
    matchRE (.seq (.lit L) r') (L ++ s) k = matchRE r' s k := by
  show matchRE (.lit L) (L ++ s) (fun s2 => matchRE r' s2 k) = _
  rw [matchRE_lit_eq,
    if_pos (List.isPrefixOf_iff_prefix.mpr (List.prefix_append L s)), List.drop_left]

theorem matchRE_https_full {rest0 : List Char} (hd : ∀ c ∈ rest0, dotP c = true)
    (hne : rest0 ≠ []) :
    matchRE httpsRE (("https:").data ++ rest0) some = some [] := by
  show matchRE (.seq (.lit (("https:").data)) (.seq (.plusG dotP) .eos))
      ((("https:").data) ++ rest0) some = some []
  rw [matchRE_seq_lit_cons]
  exact plusG_all_eos hd hne

theorem substUser {u : List Char} (hud : noDollar u) :
    replaceAllRE (.lit (("{{{user}}}").data)) u (TWEET_TEXT).data
      = ("New revert by ").data ++ (u
        ++ (" on \"{{{title}}}\": \"{{{summary}}}\" https://en.wikipedia.org/wiki/Special:Diff/{{{diff}}}").data) := by
  have h1 : (TWEET_TEXT).data
      = ("New revert by ").data ++ ((("{{{user}}}").data)
        ++ (" on \"{{{title}}}\": \"{{{summary}}}\" https://en.wikipedia.org/wiki/Special:Diff/{{{diff}}}").data) := by
    decide
  rw [h1, scan_split hud (noStartHeadOf '{' (by decide) (by decide)),
    scan_lit_hit hud (by decide),
    scan_id u (noMatchAll_lit (by decide))]

theorem substTitle {u t : List Char} (hub : ∀ c ∈ u, c ≠ '{') (htd : noDollar t) :
    replaceAllRE (.lit (("{{{title}}}").data)) t
      (("New revert by ").data ++ (u
        ++ (" on \"{{{title}}}\": \"{{{summary}}}\" https://en.wikipedia.org/wiki/Special:Diff/{{{diff}}}").data))
      = ("New revert by ").data ++ (u ++ ((" on \"").data ++ (t
        ++ ("\": \"{{{summary}}}\" https://en.wikipedia.org/wiki/Special:Diff/{{{diff}}}").data))) := by
  have h1 : (" on \"{{{title}}}\": \"{{{summary}}}\" https://en.wikipedia.org/wiki/Special:Diff/{{{diff}}}").data
      = (" on \"").data ++ ((("{{{title}}}").data)
        ++ ("\": \"{{{summary}}}\" https://en.wikipedia.org/wiki/Special:Diff/{{{diff}}}").data) := by
    decide
  rw [h1, show ("New revert by ").data ++ (u ++ ((" on \"").data ++ ((("{{{title}}}").data)
        ++ ("\": \"{{{summary}}}\" https://en.wikipedia.org/wiki/Special:Diff/{{{diff}}}").data)))
      = (("New revert by ").data ++ (u ++ (" on \"").data)) ++ ((("{{{title}}}").data)
        ++ ("\": \"{{{summary}}}\" https://en.wikipedia.org/wiki/Special:Diff/{{{diff}}}").data) by
    simp [List.append_assoc]]
  have hns : noStart (.lit (("{{{title}}}").data))
      (("New revert by ").data ++ (u ++ (" on \"").data))
      ((("{{{title}}}").data)
        ++ ("\": \"{{{summary}}}\" https://en.wikipedia.org/wiki/Special:Diff/{{{diff}}}").data) := by
    apply noStart_append _ _ _ (noStartHeadOf '{' (by decide) (by decide))
    apply noStart_append
    · exact noStart_var ' ' rfl (containsSubHeadOf '{' (by decide) hub) (by decide)
    · exact noStartHeadOf '{' (by decide) (by decide)
  rw [scan_split htd hns, scan_lit_hit htd (by decide),
    scan_id t (noMatchAll_lit (by decide))]
  simp [List.append_assoc]

theorem substSummary {u t x : List Char} (hub : ∀ c ∈ u, c ≠ '{')
    (htb : ∀ c ∈ t, c ≠ '{') (hxd : noDollar x) :
    replaceAllRE (.lit (("{{{summary}}}").data)) x
      (("New revert by ").data ++ (u ++ ((" on \"").data ++ (t
        ++ ("\": \"{{{summary}}}\" https://en.wikipedia.org/wiki/Special:Diff/{{{diff}}}").data))))
      = ("New revert by ").data ++ (u ++ ((" on \"").data ++ (t ++ (("\": \"").data ++ (x
        ++ ("\" https://en.wikipedia.org/wiki/Special:Diff/{{{diff}}}").data))))) := by
  have h1 : ("\": \"{{{summary}}}\" https://en.wikipedia.org/wiki/Special:Diff/{{{diff}}}").data
      = ("\": \"").data ++ ((("{{{summary}}}").data)
        ++ ("\" https://en.wikipedia.org/wiki/Special:Diff/{{{diff}}}").data) := by
    decide
  rw [h1, show ("New revert by ").data ++ (u ++ ((" on \"").data ++ (t
        ++ (("\": \"").data ++ ((("{{{summary}}}").data)
          ++ ("\" https://en.wikipedia.org/wiki/Special:Diff/{{{diff}}}").data)))))
      = (("New revert by ").data ++ (u ++ ((" on \"").data ++ (t ++ ("\": \"").data))))
        ++ ((("{{{summary}}}").data)
          ++ ("\" https://en.wikipedia.org/wiki/Special:Diff/{{{diff}}}").data) by
    simp [List.append_assoc]]
  have hns : noStart (.lit (("{{{summary}}}").data))
      (("New revert by ").data ++ (u ++ ((" on \"").data ++ (t ++ ("\": \"").data))))
      ((("{{{summary}}}").data)
        ++ ("\" https://en.wikipedia.org/wiki/Special:Diff/{{{diff}}}").data) := by
    apply noStart_append _ _ _ (noStartHeadOf '{' (by decide) (by decide))
    apply noStart_append
    · exact noStart_var ' ' rfl (containsSubHeadOf '{' (by decide) hub) (by decide)
    apply noStart_append _ _ _ (noStartHeadOf '{' (by decide) (by decide))
    apply noStart_append
    · exact noStart_var '"' rfl (containsSubHeadOf '{' (by decide) htb) (by decide)
    · exact noStartHeadOf '{' (by decide) (by decide)
  rw [scan_split hxd hns, scan_lit_hit hxd (by decide),
    scan_id x (noMatchAll_lit (by decide))]
  simp [List.append_assoc]

theorem httpsCount {u t : List Char}
    (hus : containsSub (("https:").data) u = false)
    (hts : containsSub (("https:").data) t = false) :
    replaceAllRE httpsRE (List.replicate 24 '-')
      (("New revert by ").data ++ (u ++ ((" on \"").data ++ (t ++ (("\": \"").data
        ++ (("\" https://en.wikipedia.org/wiki/Special:Diff/{{{diff}}}").data))))))
      = ("New revert by ").data ++ (u ++ ((" on \"").data ++ (t ++ (("\": \"").data
        ++ (("\" ").data ++ List.replicate 24 '-'))))) := by
  have h1 : ("\" https://en.wikipedia.org/wiki/Special:Diff/{{{diff}}}").data
      = ("\" ").data
        ++ ("https://en.wikipedia.org/wiki/Special:Diff/{{{diff}}}").data := by
    decide
  rw [h1, show ("New revert by ").data ++ (u ++ ((" on \"").data ++ (t ++ (("\": \"").data
        ++ (("\" ").data
          ++ ("https://en.wikipedia.org/wiki/Special:Diff/{{{diff}}}").data)))))
      = (("New revert by ").data ++ (u ++ ((" on \"").data ++ (t ++ (("\": \"").data
          ++ ("\" ").data)))))
        ++ ("https://en.wikipedia.org/wiki/Special:Diff/{{{diff}}}").data by
    simp [List.append_assoc]]
  have hd24 : noDollar (List.replicate 24 '-') := by
    intro c hc
    rw [List.eq_of_mem_replicate hc]
    decide
  have hns : noStart httpsRE
      (("New revert by ").data ++ (u ++ ((" on \"").data ++ (t ++ (("\": \"").data
        ++ ("\" ").data)))))
      (("https://en.wikipedia.org/wiki/Special:Diff/{{{diff}}}").data) := by
    apply noStart_seq_lit
    apply noStart_append _ _ _ (noStartHeadOf 'h' (by decide) (by decide))
    apply noStart_append
    · exact noStart_var ' ' rfl hus (by decide)
    apply noStart_append _ _ _ (noStartHeadOf 'h' (by decide) (by decide))
    apply noStart_append
    · exact noStart_var '"' rfl hts (by decide)
    apply noStart_append _ _ _ (noStartHeadOf 'h' (by decide) (by decide))
    exact noStartHeadOf 'h' (by decide) (by decide)
  rw [scan_split hd24 hns,
    scan_hit hd24 (by decide : matchRE httpsRE
      (("https://en.wikipedia.org/wiki/Special:Diff/{{{diff}}}").data) some = some [])
      (by decide)]
  rw [show replaceAllRE httpsRE (List.replicate 24 '-') [] = [] from rfl]
  simp [List.append_assoc]

theorem nonSummaryLength_eq (u t : String) (hu : cleanStr u) (ht : cleanStr t) :
    nonSummaryLength u t = 280 - (49 + (u.length : Int) + (t.length : Int)) := by
  obtain ⟨hub, hud, hus⟩ := hu
  obtain ⟨htb, htd, hts⟩ := ht
  show (280 : Int) - Int.ofNat (replaceAllRE httpsRE (List.replicate 24 '-')
      (replaceAllRE (.lit (("{{{summary}}}").data)) (("").data)
        (replaceAllRE (.lit (("{{{title}}}").data)) t.data
          (replaceAllRE (.lit (("{{{user}}}").data)) u.data (TWEET_TEXT).data)))).length
    = 280 - (49 + (u.length : Int) + (t.length : Int))
  rw [substUser hud, substTitle hub htd,
    substSummary hub htb (by intro c hc; simp at hc),
    show (("").data : List Char) = [] from rfl]
  rw [show ∀ z : List Char, [] ++ z = z from fun z => rfl]
  rw [httpsCount hus hts]
  simp only [List.length_append, List.length_replicate, String.length,
    List.length_cons, List.length_nil, Int.ofNat_eq_natCast]
  push_cast
  omega

theorem replaceAll_lit_nil {L : List Char} (repl : List Char) (hne : L ≠ []) :
    replaceAllRE (.lit L) repl [] = [] := by
  match L, hne with
  | c :: L', _ => rfl

theorem scan_lit_tail {L repl : List Char} (hd : noDollar repl) (hne : L ≠ []) :
    replaceAllRE (.lit L) repl L = repl := by
  have h := scan_lit_hit (b := []) hd hne
  rw [List.append_nil] at h
  rw [h, replaceAll_lit_nil repl hne, List.append_nil]

theorem noDollar_digits (rev : Nat) : noDollar (natToDec rev) :=
  fun c hc => isDigit_ne (natToDec_digits rev c hc) (by decide)

theorem substDiff {u t x : List Char} (hub : ∀ c ∈ u, c ≠ '{')
    (htb : ∀ c ∈ t, c ≠ '{') (hxb : ∀ c ∈ x, c ≠ '{') (rev : Nat) :
    replaceAllRE (.lit (("{{{diff}}}").data)) (natToDec rev)
      (("New revert by ").data ++ (u ++ ((" on \"").data ++ (t ++ (("\": \"").data ++ (x
        ++ ("\" https://en.wikipedia.org/wiki/Special:Diff/{{{diff}}}").data))))))
      = ("New revert by ").data ++ (u ++ ((" on \"").data ++ (t ++ (("\": \"").data ++ (x
        ++ (("\" https://en.wikipedia.org/wiki/Special:Diff/").data ++ natToDec rev)))))) := by
  have h1 : ("\" https://en.wikipedia.org/wiki/Special:Diff/{{{diff}}}").data
      = ("\" https://en.wikipedia.org/wiki/Special:Diff/").data
        ++ (("{{{diff}}}").data) := by
    decide
  rw [h1, show ("New revert by ").data ++ (u ++ ((" on \"").data ++ (t ++ (("\": \"").data
        ++ (x ++ (("\" https://en.wikipedia.org/wiki/Special:Diff/").data
          ++ (("{{{diff}}}").data)))))))
      = (("New revert by ").data ++ (u ++ ((" on \"").data ++ (t ++ (("\": \"").data
        ++ (x ++ ("\" https://en.wikipedia.org/wiki/Special:Diff/").data))))))
        ++ (("{{{diff}}}").data) by
    simp [List.append_assoc]]
  have hns : noStart (.lit (("{{{diff}}}").data))
      (("New revert by ").data ++ (u ++ ((" on \"").data ++ (t ++ (("\": \"").data
        ++ (x ++ ("\" https://en.wikipedia.org/wiki/Special:Diff/").data))))))
      (("{{{diff}}}").data) := by
    apply noStart_append _ _ _ (noStartHeadOf '{' (by decide) (by decide))
    apply noStart_append
    · exact noStart_var ' ' rfl (containsSubHeadOf '{' (by decide) hub) (by decide)
    apply noStart_append _ _ _ (noStartHeadOf '{' (by decide) (by decide))
    apply noStart_append
    · exact noStart_var '"' rfl (containsSubHeadOf '{' (by decide) htb) (by decide)
    apply noStart_append _ _ _ (noStartHeadOf '{' (by decide) (by decide))
    apply noStart_append
    · exact noStart_var '"' rfl (containsSubHeadOf '{' (by decide) hxb) (by decide)
    · exact noStartHeadOf '{' (by decide) (by decide)
  rw [scan_split (noDollar_digits rev) hns, scan_lit_tail (noDollar_digits rev) (by decide)]
  simp [List.append_assoc]

theorem httpsFinal {u t x : List Char} (rev : Nat)
    (hus : containsSub (("https:").data) u = false)
    (hts : containsSub (("https:").data) t = false)
    (hxs : containsSub (("https:").data) x = false) :
    replaceAllRE httpsRE (List.replicate 24 '-')
      (("New revert by ").data ++ (u ++ ((" on \"").data ++ (t ++ (("\": \"").data ++ (x
        ++ (("\" https://en.wikipedia.org/wiki/Special:Diff/").data ++ natToDec rev)))))))
      = ("New revert by ").data ++ (u ++ ((" on \"").data ++ (t ++ (("\": \"").data ++ (x
        ++ (("\" ").data ++ List.replicate 24 '-')))))) := by
  have h1 : ("\" https://en.wikipedia.org/wiki/Special:Diff/").data
      = ("\" ").data ++ ("https://en.wikipedia.org/wiki/Special:Diff/").data := by
    decide
  rw [h1, show ("New revert by ").data ++ (u ++ ((" on \"").data ++ (t ++ (("\": \"").data
        ++ (x ++ ((("\" ").data ++ ("https://en.wikipedia.org/wiki/Special:Diff/").data)
          ++ natToDec rev))))))
      = (("New revert by ").data ++ (u ++ ((" on \"").data ++ (t ++ (("\": \"").data
        ++ (x ++ ("\" ").data))))))
        ++ (("https://en.wikipedia.org/wiki/Special:Diff/").data ++ natToDec rev) by
    simp [List.append_assoc]]
  have hd24 : noDollar (List.replicate 24 '-') := by
    intro c hc
    rw [List.eq_of_mem_replicate hc]
    decide
  have hns : noStart httpsRE
      (("New revert by ").data ++ (u ++ ((" on \"").data ++ (t ++ (("\": \"").data
        ++ (x ++ ("\" ").data))))))
      (("https://en.wikipedia.org/wiki/Special:Diff/").data ++ natToDec rev) := by
    apply noStart_seq_lit
    apply noStart_append _ _ _ (noStartHeadOf 'h' (by decide) (by decide))
    apply noStart_append
    · exact noStart_var ' ' rfl hus (by decide)
    apply noStart_append _ _ _ (noStartHeadOf 'h' (by decide) (by decide))
    apply noStart_append
    · exact noStart_var '"' rfl hts (by decide)
    apply noStart_append _ _ _ (noStartHeadOf 'h' (by decide) (by decide))
    apply noStart_append
    · exact noStart_var '"' rfl hxs (by decide)
    · exact noStartHeadOf 'h' (by decide) (by decide)
  have hfull : matchRE httpsRE
      (("https://en.wikipedia.org/wiki/Special:Diff/").data ++ natToDec rev) some
      = some [] := by
    rw [show ("https://en.wikipedia.org/wiki/Special:Diff/").data ++ natToDec rev
        = ("https:").data
          ++ (("//en.wikipedia.org/wiki/Special:Diff/").data ++ natToDec rev) by
      rw [show ("https://en.wikipedia.org/wiki/Special:Diff/").data
          = ("https:").data ++ ("//en.wikipedia.org/wiki/Special:Diff/").data by decide]
      simp [List.append_assoc]]
    apply matchRE_https_full
    · have hconc : ∀ c ∈ ("//en.wikipedia.org/wiki/Special:Diff/").data, dotP c = true := by
        decide
      intro c hc
      rcases List.mem_append.mp hc with hc | hc
      · exact hconc c hc
      · exact isDigit_dotP (natToDec_digits rev c hc)
    · simp
  rw [scan_split hd24 hns, scan_hit hd24 hfull (by simp),
    show replaceAllRE httpsRE (List.replicate 24 '-') [] = [] from rfl]
  simp [List.append_assoc]

theorem substUserE {u : List Char} (hud : noDollar u) :
    replaceAllRE (.lit (("{{{user}}}").data)) u (TWEET_TEXT_EMPTY).data
      = ("New revert by ").data ++ (u
        ++ (" on \"{{{title}}}\" with no given reason. https://en.wikipedia.org/wiki/Special:Diff/{{{diff}}}").data) := by
  have h1 : (TWEET_TEXT_EMPTY).data
      = ("New revert by ").data ++ ((("{{{user}}}").data)
        ++ (" on \"{{{title}}}\" with no given reason. https://en.wikipedia.org/wiki/Special:Diff/{{{diff}}}").data) := by
    decide
  rw [h1, scan_split hud (noStartHeadOf '{' (by decide) (by decide)),
    scan_lit_hit hud (by decide),
    scan_id u (noMatchAll_lit (by decide))]

theorem substTitleE {u t : List Char} (hub : ∀ c ∈ u, c ≠ '{') (htd : noDollar t) :
    replaceAllRE (.lit (("{{{title}}}").data)) t
      (("New revert by ").data ++ (u
        ++ (" on \"{{{title}}}\" with no given reason. https://en.wikipedia.org/wiki/Special:Diff/{{{diff}}}").data))
      = ("New revert by ").data ++ (u ++ ((" on \"").data ++ (t
        ++ ("\" with no given reason. https://en.wikipedia.org/wiki/Special:Diff/{{{diff}}}").data))) := by
  have h1 : (" on \"{{{title}}}\" with no given reason. https://en.wikipedia.org/wiki/Special:Diff/{{{diff}}}").data
      = (" on \"").data ++ ((("{{{title}}}").data)
        ++ ("\" with no given reason. https://en.wikipedia.org/wiki/Special:Diff/{{{diff}}}").data) := by
    decide
  rw [h1, show ("New revert by ").data ++ (u ++ ((" on \"").data ++ ((("{{{title}}}").data)
        ++ ("\" with no given reason. https://en.wikipedia.org/wiki/Special:Diff/{{{diff}}}").data)))
      = (("New revert by ").data ++ (u ++ (" on \"").data)) ++ ((("{{{title}}}").data)
        ++ ("\" with no given reason. https://en.wikipedia.org/wiki/Special:Diff/{{{diff}}}").data) by
    simp [List.append_assoc]]
  have hns : noStart (.lit (("{{{title}}}").data))
      (("New revert by ").data ++ (u ++ (" on \"").data))
      ((("{{{title}}}").data)
        ++ ("\" with no given reason. https://en.wikipedia.org/wiki/Special:Diff/{{{diff}}}").data) := by
    apply noStart_append _ _ _ (noStartHeadOf '{' (by decide) (by decide))
    apply noStart_append
    · exact noStart_var ' ' rfl (containsSubHeadOf '{' (by decide) hub) (by decide)
    · exact noStartHeadOf '{' (by decide) (by decide)
  rw [scan_split htd hns, scan_lit_hit htd (by decide),
    scan_id t (noMatchAll_lit (by decide))]
  simp [List.append_assoc]

theorem substDiffE {u t : List Char} (hub : ∀ c ∈ u, c ≠ '{')
    (htb : ∀ c ∈ t, c ≠ '{') (rev : Nat) :
    replaceAllRE (.lit (("{{{diff}}}").data)) (natToDec rev)
      (("New revert by ").data ++ (u ++ ((" on \"").data ++ (t
        ++ ("\" with no given reason. https://en.wikipedia.org/wiki/Special:Diff/{{{diff}}}").data))))
      = ("New revert by ").data ++ (u ++ ((" on \"").data ++ (t
        ++ (("\" with no given reason. https://en.wikipedia.org/wiki/Special:Diff/").data
          ++ natToDec rev)))) := by
  have h1 : ("\" with no given reason. https://en.wikipedia.org/wiki/Special:Diff/{{{diff}}}").data
      = ("\" with no given reason. https://en.wikipedia.org/wiki/Special:Diff/").data
        ++ (("{{{diff}}}").data) := by
    decide
  rw [h1, show ("New revert by ").data ++ (u ++ ((" on \"").data ++ (t
        ++ (("\" with no given reason. https://en.wikipedia.org/wiki/Special:Diff/").data
          ++ (("{{{diff}}}").data)))))
      = (("New revert by ").data ++ (u ++ ((" on \"").data ++ (t
        ++ ("\" with no given reason. https://en.wikipedia.org/wiki/Special:Diff/").data))))
        ++ (("{{{diff}}}").data) by
    simp [List.append_assoc]]
  have hns : noStart (.lit (("{{{diff}}}").data))
      (("New revert by ").data ++ (u ++ ((" on \"").data ++ (t
        ++ ("\" with no given reason. https://en.wikipedia.org/wiki/Special:Diff/").data))))
      (("{{{diff}}}").data) := by
    apply noStart_append _ _ _ (noStartHeadOf '{' (by decide) (by decide))
    apply noStart_append
    · exact noStart_var ' ' rfl (containsSubHeadOf '{' (by decide) hub) (by decide)
    apply noStart_append _ _ _ (noStartHeadOf '{' (by decide) (by decide))
    apply noStart_append
    · exact noStart_var '"' rfl (containsSubHeadOf '{' (by decide) htb) (by decide)
    · exact noStartHeadOf '{' (by decide) (by decide)
  rw [scan_split (noDollar_digits rev) hns, scan_lit_tail (noDollar_digits rev) (by decide)]
  simp [List.append_assoc]

theorem httpsFinalE {u t : List Char} (rev : Nat)
    (hus : containsSub (("https:").data) u = false)
    (hts : containsSub (("https:").data) t = false) :
    replaceAllRE httpsRE (List.replicate 24 '-')
      (("New revert by ").data ++ (u ++ ((" on \"").data ++ (t
        ++ (("\" with no given reason. https://en.wikipedia.org/wiki/Special:Diff/").data
          ++ natToDec rev)))))
      = ("New revert by ").data ++ (u ++ ((" on \"").data ++ (t
        ++ (("\" with no given reason. ").data ++ List.replicate 24 '-')))) := by
  have h1 : ("\" with no given reason. https://en.wikipedia.org/wiki/Special:Diff/").data
      = ("\" with no given reason. ").data
        ++ ("https://en.wikipedia.org/wiki/Special:Diff/").data := by
    decide
  rw [h1, show ("New revert by ").data ++ (u ++ ((" on \"").data ++ (t
        ++ ((("\" with no given reason. ").data
          ++ ("https://en.wikipedia.org/wiki/Special:Diff/").data) ++ natToDec rev))))
      = (("New revert by ").data ++ (u ++ ((" on \"").data ++ (t
        ++ ("\" with no given reason. ").data))))
        ++ (("https://en.wikipedia.org/wiki/Special:Diff/").data ++ natToDec rev) by
    simp [List.append_assoc]]
  have hd24 : noDollar (List.replicate 24 '-') := by
    intro c hc
    rw [List.eq_of_mem_replicate hc]
    decide
  have htk : ((("https://en.wikipedia.org/wiki/Special:Diff/").data ++ natToDec rev)).take
      ((("https:").data).length - 1) = ("https").data := by
    rw [show ((("https:").data).length - 1) = 5 by decide, List.take_append_eq_append_take,
      show ((5 : Nat) - (("https://en.wikipedia.org/wiki/Special:Diff/").data).length) = 0
        by decide,
      List.take_zero, List.append_nil]
    decide
  have hns : noStart httpsRE
      (("New revert by ").data ++ (u ++ ((" on \"").data ++ (t
        ++ ("\" with no given reason. ").data))))
      (("https://en.wikipedia.org/wiki/Special:Diff/").data ++ natToDec rev) := by
    apply noStart_seq_lit
    apply noStart_append _ _ _ (noStartHeadOf 'h' (by decide) (by decide))
    apply noStart_append
    · exact noStart_var ' ' rfl hus (by decide)
    apply noStart_append _ _ _ (noStartHeadOf 'h' (by decide) (by decide))
    apply noStart_append
    · exact noStart_var '"' rfl hts (by decide)
    · apply noStart_take
      rw [htk]
      decide
  have hfull : matchRE httpsRE
      (("https://en.wikipedia.org/wiki/Special:Diff/").data ++ natToDec rev) some
      = some [] := by
    rw [show ("https://en.wikipedia.org/wiki/Special:Diff/").data ++ natToDec rev
        = ("https:").data
          ++ (("//en.wikipedia.org/wiki/Special:Diff/").data ++ natToDec rev) by
      rw [show ("https://en.wikipedia.org/wiki/Special:Diff/").data
          = ("https:").data ++ ("//en.wikipedia.org/wiki/Special:Diff/").data by decide]
      simp [List.append_assoc]]
    apply matchRE_https_full
    · have hconc : ∀ c ∈ ("//en.wikipedia.org/wiki/Special:Diff/").data, dotP c = true := by
        decide
      intro c hc
      rcases List.mem_append.mp hc with hc | hc
      · exact hconc c hc
      · exact isDigit_dotP (natToDec_digits rev c hc)
    · simp
  rw [scan_split hd24 hns, scan_hit hd24 hfull (by simp),
    show replaceAllRE httpsRE (List.replicate 24 '-') [] = [] from rfl]
  simp [List.append_assoc]

theorem formatTweet_data_pos (u t reason : String) (rev : Nat)
    (hu : cleanStr u) (ht : cleanStr t) (hr : cleanStr reason)
    (hpos : reason.length > 0) :
    (formatTweet u t rev reason).data
      = ("New revert by ").data ++ (u.data ++ ((" on \"").data ++ (t.data
        ++ (("\": \"").data ++ ((reason.data.take (nonSummaryLength u t).toNat)
          ++ (("\" https://en.wikipedia.org/wiki/Special:Diff/").data
            ++ natToDec rev)))))) := by
  obtain ⟨hub, hud, _⟩ := hu
  obtain ⟨htb, htd, _⟩ := ht
  obtain ⟨hrb, hrd, _⟩ := hr
  have hXd : noDollar (reason.data.take (nonSummaryLength u t).toNat) :=
    fun c hc => hrd c (List.mem_of_mem_take hc)
  have hXb : ∀ c ∈ reason.data.take (nonSummaryLength u t).toNat, c ≠ '{' :=
    fun c hc => hrb c (List.mem_of_mem_take hc)
  unfold formatTweet
  rw [if_pos hpos]
  show (replaceAllRE (.lit (("{{{diff}}}").data)) (natToDec rev)
      (replaceAllRE (.lit (("{{{summary}}}").data))
        (reason.data.take (nonSummaryLength u t).toNat)
        (replaceAllRE (.lit (("{{{title}}}").data)) t.data
          (replaceAllRE (.lit (("{{{user}}}").data)) u.data (TWEET_TEXT).data)))) = _
  rw [substUser hud, substTitle hub htd, substSummary hub htb hXd,
    substDiff hub htb hXb rev]

theorem formatTweet_data_empty (u t reason : String) (rev : Nat)
    (hu : cleanStr u) (ht : cleanStr t) (hz : ¬ reason.length > 0) :
    (formatTweet u t rev reason).data
      = ("New revert by ").data ++ (u.data ++ ((" on \"").data ++ (t.data
        ++ (("\" with no given reason. https://en.wikipedia.org/wiki/Special:Diff/").data
          ++ natToDec rev)))) := by
  obtain ⟨hub, hud, _⟩ := hu
  obtain ⟨htb, htd, _⟩ := ht
  unfold formatTweet
  rw [if_neg hz]
  show (replaceAllRE (.lit (("{{{diff}}}").data)) (natToDec rev)
      (replaceAllRE (.lit (("{{{title}}}").data)) t.data
        (replaceAllRE (.lit (("{{{user}}}").data)) u.data (TWEET_TEXT_EMPTY).data))) = _
  rw [substUserE hud, substTitleE hub htd, substDiffE hub htb rev]

/-! ## Claim theorems -/

/-- C1 (amended): as stated the claim is false — `format` counts the URL
as 24 characters (Twitter's link accounting, line 113), while the real
link substring is 43 characters plus the revision id, so the actual
string length can exceed 280 (see the counterexample).  The nearby true
statement: for every Qualifying event whose user, title and reason
contain no brace, no dollar and no `https:` and whose user+title length
leaves the fixed template text within budget (at most 213 characters
combined, which makes even the longer no-reason template fit), the
formatted text measured by the code's own accounting — the `https:` tail
counted as 24 characters — is at most 280, under both the non-empty-reason
template and the empty-reason template. -/
theorem c1_link_adjusted_budget (u t reason : String) (rev : Nat)
    (hu : cleanStr u) (ht : cleanStr t) (hr : cleanStr reason)
    (hlen : u.length + t.length ≤ 213) :
    linkAdjustedLength (formatTweet u t rev reason) ≤ 280 := by
  have hlen' : u.data.length + t.data.length ≤ 213 := hlen
  by_cases hpos : reason.length > 0
  · show (replaceAllRE httpsRE (List.replicate 24 '-')
      (formatTweet u t rev reason).data).length ≤ 280
    rw [formatTweet_data_pos u t reason rev hu ht hr hpos,
      httpsFinal rev hu.2.2 ht.2.2 (containsSub_take_false hr.2.2 _)]
    have hn : (nonSummaryLength u t).toNat = 231 - (u.data.length + t.data.length) := by
      rw [nonSummaryLength_eq u t hu ht]
      have h1 : u.length = u.data.length := rfl
      have h2 : t.length = t.data.length := rfl
      rw [h1, h2]
      omega
    simp only [List.length_append, List.length_replicate, List.length_cons,
      List.length_nil, List.length_take, hn]
    omega
  · show (replaceAllRE httpsRE (List.replicate 24 '-')
      (formatTweet u t rev reason).data).length ≤ 280
    rw [formatTweet_data_empty u t reason rev hu ht hpos,
      httpsFinalE rev hu.2.2 ht.2.2]
    simp only [List.length_append, List.length_replicate, List.length_cons,
      List.length_nil]
    omega

theorem string_data_ext {s₁ s₂ : String} (h : s₁.data = s₂.data) : s₁ = s₂ := by
  cases s₁
  cases s₂
  simp_all

/-- C4 (amended): as stated the claim is false — the rendered string's
raw length is not 280 because the real link is longer than the 24
characters the budget computation (line 113) charges for it (see the
counterexample).  The nearby true statement: for a qualifying event with
clean fields, a 300-character reason and user+title of combined length at
most 231, the formatted text is exactly the template with the reason
truncated to the remaining budget `231 - |user| - |title|` characters and
the surrounding template text and link substring intact, and its length
under the code's own link accounting (`https:` tail counted as 24) is
exactly 280. -/
theorem c4_truncation_exact (u t reason : String) (rev : Nat)
    (hu : cleanStr u) (ht : cleanStr t) (hr : cleanStr reason)
    (h300 : reason.length = 300) (hlen : u.length + t.length ≤ 231) :
    linkAdjustedLength (formatTweet u t rev reason) = 280 ∧
    formatTweet u t rev reason =
      ⟨("New revert by ").data ++ (u.data ++ ((" on \"").data ++ (t.data
        ++ (("\": \"").data ++ ((reason.data.take (231 - (u.length + t.length)))
          ++ (("\" https://en.wikipedia.org/wiki/Special:Diff/").data
            ++ natToDec rev))))))⟩ := by
  have hlen' : u.data.length + t.data.length ≤ 231 := hlen
  have h300' : reason.data.length = 300 := h300
  have hpos : reason.length > 0 := by
    rw [h300]
    omega
  have hn : (nonSummaryLength u t).toNat = 231 - (u.data.length + t.data.length) := by
    rw [nonSummaryLength_eq u t hu ht]
    have h1 : u.length = u.data.length := rfl
    have h2 : t.length = t.data.length := rfl
    rw [h1, h2]
    omega
  constructor
  · show (replaceAllRE httpsRE (List.replicate 24 '-')
      (formatTweet u t rev reason).data).length = 280
    rw [formatTweet_data_pos u t reason rev hu ht hr hpos,
      httpsFinal rev hu.2.2 ht.2.2 (containsSub_take_false hr.2.2 _)]
    simp only [List.length_append, List.length_replicate, List.length_cons,
      List.length_nil, List.length_take, hn]
    omega
  · apply string_data_ext
    rw [formatTweet_data_pos u t reason rev hu ht hr hpos]
    show _ = ("New revert by ").data ++ (u.data ++ ((" on \"").data ++ (t.data
        ++ (("\": \"").data ++ ((reason.data.take (231 - (u.length + t.length)))
          ++ (("\" https://en.wikipedia.org/wiki/Special:Diff/").data
            ++ natToDec rev))))))
    rw [hn]
    rfl

/-- C1 counterexample: a concrete qualifying event (enwiki edit on a
monitored page, Undo summary followed by a 300-character reason) whose
formatted tweet text has raw character length 302, exceeding 280: the
code budgets the URL at 24 characters but embeds the full
43-character-plus-id link. -/
theorem c1_counterexample :
    classify [("Typhoon Test")]
      { wiki := "enwiki", type := "edit", title := "Typhoon Test",
        comment := ⟨("Undid revision 999 by Foo (talk) ").data ++ List.replicate 300 'A'⟩,
        parsedcomment := ⟨("Undid revision 999 by Foo (talk) ").data
          ++ List.replicate 300 'A'⟩,
        user := "ExampleUser", revNew := 999 }
      = .qualifying ("ExampleUser") ("Typhoon Test") 999 ⟨List.replicate 300 'A'⟩
    ∧ Option.map String.length (handleChange [("Typhoon Test")]
      { wiki := "enwiki", type := "edit", title := "Typhoon Test",
        comment := ⟨("Undid revision 999 by Foo (talk) ").data ++ List.replicate 300 'A'⟩,
        parsedcomment := ⟨("Undid revision 999 by Foo (talk) ").data
          ++ List.replicate 300 'A'⟩,
        user := "ExampleUser", revNew := 999 }) = some 302
    ∧ 280 < 302 := by
  exact ⟨by decide, by decide, by decide⟩

/-- C1 witness: the amended budget theorem applied at a concrete input. -/
theorem c1_witness :
    linkAdjustedLength (formatTweet ("Foo") ("Typhoon Test") 999 ("unsourced claim"))
      ≤ 280 :=
  c1_link_adjusted_budget ("Foo") ("Typhoon Test") ("unsourced claim") 999
    ⟨by decide, by decide, by decide⟩ ⟨by decide, by decide, by decide⟩
    ⟨by decide, by decide, by decide⟩ (by decide)

/-- C4 counterexample: the same qualifying event with a 300-character
reason: the formatted text has raw length 302, not exactly 280. -/
theorem c4_counterexample :
    classify [("Typhoon Test")]
      { wiki := "enwiki", type := "edit", title := "Typhoon Test",
        comment := ⟨("Undid revision 999 by Foo (talk) ").data ++ List.replicate 300 'A'⟩,
        parsedcomment := ⟨("Undid revision 999 by Foo (talk) ").data
          ++ List.replicate 300 'A'⟩,
        user := "ExampleUser", revNew := 999 }
      = .qualifying ("ExampleUser") ("Typhoon Test") 999 ⟨List.replicate 300 'A'⟩
    ∧ (String.mk (List.replicate 300 'A')).length = 300
    ∧ Option.map String.length (handleChange [("Typhoon Test")]
      { wiki := "enwiki", type := "edit", title := "Typhoon Test",
        comment := ⟨("Undid revision 999 by Foo (talk) ").data ++ List.replicate 300 'A'⟩,
        parsedcomment := ⟨("Undid revision 999 by Foo (talk) ").data
          ++ List.replicate 300 'A'⟩,
        user := "ExampleUser", revNew := 999 }) = some 302
    ∧ (302 : Nat) ≠ 280 := by
  exact ⟨by decide, by decide, by decide, by decide⟩

/-- C4 witness: the amended exact-truncation theorem applied at a
concrete input with a 300-character reason. -/
theorem c4_witness :
    linkAdjustedLength (formatTweet ("ExampleUser") ("Typhoon Test") 999
      ⟨List.replicate 300 'A'⟩) = 280 :=
  (c4_truncation_exact ("ExampleUser") ("Typhoon Test") ⟨List.replicate 300 'A'⟩ 999
    ⟨by decide, by decide, by decide⟩ ⟨by decide, by decide, by decide⟩
    ⟨by decide, by decide, by decide⟩ (by decide) (by decide)).1

/-- C2 counterexample: for the rollback comment of the claim on a
monitored page, classify returns `Qualifying` but with reason
`": unsourced claim"` — the rollback signature pattern does not consume
the `": "` separator and the code never trims — so the reason is not
`"unsourced claim"` as claimed. -/
theorem c2_counterexample :
    classify [("Typhoon Odette")]
      { wiki := "enwiki", type := "edit", title := "Typhoon Odette",
        comment := "Reverted 1 edit by Foo (talk) to last version by Bar (talk): unsourced claim",
        parsedcomment := "Reverted 1 edit by Foo (talk) to last version by Bar (talk): unsourced claim",
        user := "UserA", revNew := 777 }
      = .qualifying ("UserA") ("Typhoon Odette") 777 (": unsourced claim")
    ∧ (": unsourced claim" : String) ≠ ("unsourced claim" : String) := by
  exact ⟨by decide, by decide⟩

/-- C2 (amended): for the comment `"Reverted 1 edit by Foo (talk) to last
version by Bar (talk): unsourced claim"` on a monitored page of the
target wiki with eventType edit (and an editor other than the exempt
ClueBot NG account), classify returns Qualifying with reason equal to
`": unsourced claim"`: the stripped summary keeps the `": "` separator
left behind by the rollback signature, and no trimming is applied. -/
theorem c2_rollback_reason (pages : List String) (user title : String) (rev : Nat)
    (hp : pages.contains title = true) (hcb : user ≠ "ClueBot NG") :
    classify pages
      { wiki := "enwiki", type := "edit", title := title,
        comment := "Reverted 1 edit by Foo (talk) to last version by Bar (talk): unsourced claim",
        parsedcomment := "Reverted 1 edit by Foo (talk) to last version by Bar (talk): unsourced claim",
        user := user, revNew := rev }
      = .qualifying user title rev (": unsourced claim") := by
  unfold classify
  dsimp only
  rw [if_neg (by decide)]
  rw [if_neg (by rw [hp]; decide)]
  have h3 : (containsSub (("([[WP:HG|HG]])").data)
      ("Reverted 1 edit by Foo (talk) to last version by Bar (talk): unsourced claim").data
      || user == "ClueBot NG") = false := by
    rw [show containsSub (("([[WP:HG|HG]])").data)
        ("Reverted 1 edit by Foo (talk) to last version by Bar (talk): unsourced claim").data
      = false from by decide]
    simpa using hcb
  rw [if_neg (by simp [h3])]
  rw [if_neg (by decide)]
  rw [if_neg (by decide)]
  rw [show stripAll
      ("Reverted 1 edit by Foo (talk) to last version by Bar (talk): unsourced claim")
    = (": unsourced claim") from by decide]

/-- C2 witness: the amended theorem applied at a concrete input. -/
theorem c2_witness :
    classify [("Typhoon Rai")]
      { wiki := "enwiki", type := "edit", title := "Typhoon Rai",
        comment := "Reverted 1 edit by Foo (talk) to last version by Bar (talk): unsourced claim",
        parsedcomment := "Reverted 1 edit by Foo (talk) to last version by Bar (talk): unsourced claim",
        user := "UserB", revNew := 4321 }
      = .qualifying ("UserB") ("Typhoon Rai") 4321 (": unsourced claim") :=
  c2_rollback_reason [("Typhoon Rai")] ("UserB") ("Typhoon Rai") 4321
    (by decide) (by decide)

/-- C6: for an event whose comment is exactly
`"Undid revision 12345 by Foo (talk)"` with nothing following, on a
monitored page of the target wiki with eventType edit (and an editor
other than the exempt ClueBot NG account), classify returns Qualifying
with reason equal to the empty string, and format selects the distinct
no-reason template `TWEET_TEXT_EMPTY` rather than the quoted-reason
template. -/
theorem c6_undo_empty_reason (pages : List String) (user title : String) (rev : Nat)
    (hp : pages.contains title = true) (hcb : user ≠ "ClueBot NG") :
    classify pages
      { wiki := "enwiki", type := "edit", title := title,
        comment := "Undid revision 12345 by Foo (talk)",
        parsedcomment := "Undid revision 12345 by Foo (talk)",
        user := user, revNew := rev }
      = .qualifying user title rev ("")
    ∧ handleChange pages
      { wiki := "enwiki", type := "edit", title := title,
        comment := "Undid revision 12345 by Foo (talk)",
        parsedcomment := "Undid revision 12345 by Foo (talk)",
        user := user, revNew := rev }
      = some (formatTweet user title rev (""))
    ∧ formatTweet user title rev ("")
      = jsReplaceAll ("{{{diff}}}") (⟨natToDec rev⟩ : String)
          (jsReplaceAll ("{{{title}}}") title
            (jsReplaceAll ("{{{user}}}") user TWEET_TEXT_EMPTY)) := by
  have hcls : classify pages
      { wiki := "enwiki", type := "edit", title := title,
        comment := "Undid revision 12345 by Foo (talk)",
        parsedcomment := "Undid revision 12345 by Foo (talk)",
        user := user, revNew := rev }
      = .qualifying user title rev ("") := by
    unfold classify
    dsimp only
    rw [if_neg (by decide)]
    rw [if_neg (by rw [hp]; decide)]
    have h3 : (containsSub (("([[WP:HG|HG]])").data)
        ("Undid revision 12345 by Foo (talk)").data
        || user == "ClueBot NG") = false := by
      rw [show containsSub (("([[WP:HG|HG]])").data)
          ("Undid revision 12345 by Foo (talk)").data = false from by decide]
      simpa using hcb
    rw [if_neg (by simp [h3])]
    rw [if_neg (by decide)]
    rw [if_neg (by decide)]
    rw [show stripAll ("Undid revision 12345 by Foo (talk)") = ("") from by decide]
  refine ⟨hcls, ?_, ?_⟩
  · unfold handleChange
    rw [hcls]
  · unfold formatTweet
    rw [if_neg (by decide)]

/-- C6 witness: the theorem applied at a concrete input. -/
theorem c6_witness :
    classify [("Typhoon Rai")]
      { wiki := "enwiki", type := "edit", title := "Typhoon Rai",
        comment := "Undid revision 12345 by Foo (talk)",
        parsedcomment := "Undid revision 12345 by Foo (talk)",
        user := "UserC", revNew := 555 }
      = .qualifying ("UserC") ("Typhoon Rai") 555 ("") :=
  (c6_undo_empty_reason [("Typhoon Rai")] ("UserC") ("Typhoon Rai") 555
    (by decide) (by decide)).1

/-- C7: for every event whose raw comment contains the HuggleLite marker
`"([[WP:HG|HG]])"` or whose editor is `"ClueBot NG"`, classify returns
NotQualifying, even if the summary also matches a revert-pattern prefix:
every earlier gate also returns NotQualifying, and the exemption gate of
lines 73-74 fires before any signature is consulted. -/
theorem c7_bot_exemptions (pages : List String) (c : RecentChange)
    (h : containsSub (("([[WP:HG|HG]])").data) c.comment.data = true
      ∨ c.user = "ClueBot NG") :
    classify pages c = .notQualifying := by
  have h3 : (containsSub (("([[WP:HG|HG]])").data) c.comment.data
      || (c.user == "ClueBot NG")) = true := by
    rcases h with h | h
    · simp [h]
    · simp [h]
  unfold classify
  split
  · rfl
  · split
    · rfl
    · simp [h3]

/-- C7 witness: a concrete HG-marked comment on a monitored page (whose
summary even matches the Undo signature) is dropped. -/
theorem c7_witness :
    containsSub (("([[WP:HG|HG]])").data)
      ("Undid revision 7 by X (talk) ([[WP:HG|HG]])").data = true
    ∧ classify [("Typhoon Rai")]
      { wiki := "enwiki", type := "edit", title := "Typhoon Rai",
        comment := "Undid revision 7 by X (talk) ([[WP:HG|HG]])",
        parsedcomment := "Undid revision 7 by X (talk) ([[WP:HG|HG]])",
        user := "UserD", revNew := 9 } = .notQualifying :=
  ⟨by decide, c7_bot_exemptions [("Typhoon Rai")] _ (Or.inl (by decide))⟩

/-- C8: for every event with eventType other than edit, or a wiki other
than the configured target `enwiki`, or a title absent from the monitored
pages, classify returns NotQualifying, regardless of the comment
content. -/
theorem c8_pre_filters (pages : List String) (c : RecentChange)
    (h : c.type ≠ "edit" ∨ c.wiki ≠ "enwiki" ∨ pages.contains c.title = false) :
    classify pages c = .notQualifying := by
  rcases h with h | h | h
  · have h1 : (c.wiki != "enwiki" || c.type != "edit") = true := by
      simp only [Bool.or_eq_true, bne_iff_ne]
      exact Or.inr h
    unfold classify
    rw [if_pos h1]
  · have h1 : (c.wiki != "enwiki" || c.type != "edit") = true := by
      simp only [Bool.or_eq_true, bne_iff_ne]
      exact Or.inl h
    unfold classify
    rw [if_pos h1]
  · unfold classify
    split
    · rfl
    · rw [if_pos (by simpa using h)]

/-- C8 witness: a non-edit event and an unmonitored title are both
dropped, at concrete inputs. -/
theorem c8_witness :
    classify [("Typhoon Rai")]
      { wiki := "enwiki", type := "categorize", title := "Typhoon Rai",
        comment := "Undid revision 12345 by Foo (talk)",
        parsedcomment := "Undid revision 12345 by Foo (talk)",
        user := "UserE", revNew := 3 } = .notQualifying
    ∧ classify [("Typhoon Rai")]
      { wiki := "enwiki", type := "edit", title := "Hurricane Zeta",
        comment := "Undid revision 12345 by Foo (talk)",
        parsedcomment := "Undid revision 12345 by Foo (talk)",
        user := "UserE", revNew := 3 } = .notQualifying :=
  ⟨c8_pre_filters [("Typhoon Rai")] _ (Or.inl (by decide)),
    c8_pre_filters [("Typhoon Rai")] _ (Or.inr (Or.inr (by decide)))⟩

/-- C9: classification is purely functional over a single event's data:
classifying the same event against the same monitored-page set twice
gives the same result, and the driver's output decomposes over the event
sequence — the tweets emitted for any later events are unaffected by the
events processed before them (no cross-event state; the regex objects are
rebuilt per event, so no `lastIndex` survives between events). -/
theorem c9_purely_functional (pages : List String) (e : RecentChange)
    (es₁ es₂ : List RecentChange) :
    classify pages e = classify pages e
    ∧ runStream pages (es₁ ++ es₂) = runStream pages es₁ ++ runStream pages es₂
    ∧ runStream pages (es₁ ++ e :: es₂)
      = runStream pages es₁ ++ ((handleChange pages e).toList ++ runStream pages es₂) := by
  refine ⟨rfl, List.filterMap_append es₁ es₂ (handleChange pages), ?_⟩
  rw [runStream, List.filterMap_append]
  unfold runStream
  congr 1
  rw [List.filterMap_cons]
  cases handleChange pages e <;> simp

/-- C5: the claim describes required behavior (errors in per-event
processing must not escape the handler), but the handler body of lines
67-130 contains no `try`/`catch`: on an event with a missing `comment`
field, `change.comment.includes(...)` (line 73) throws a TypeError that
propagates out of the event handler instead of skipping the event.  The
raw-event model returns that error. -/
theorem c5_error_escapes :
    rawHandle [("Typhoon Test")]
      { wiki := some "enwiki", type := some "edit", title := some "Typhoon Test",
        comment := none, parsedcomment := none, user := some "UserA", revNew := some 1 }
      = .error "TypeError: Cannot read properties of undefined (reading includes)" := by
  rfl

theorem replaceTop_id {r : RE} {s : List Char} (h : testRE r s = false) :
    replaceTop r s = s := by
  unfold testRE at h
  unfold replaceTop
  cases hm : matchRE r s some with
  | none => rfl
  | some rest =>
    rw [hm] at h
    simp at h

theorem cleanup_id {s : List Char} (h : containsSub (("(talk)").data) s = false) :
    replaceAllRE cleanupRE [] s = s := by
  apply scan_id
  intro a₁ a₂ ha
  cases hm : matchRE cleanupRE a₂ some with
  | none => rfl
  | some res =>
    exfalso
    have hsuf : a₂ <:+ s := ⟨a₁, ha.symm⟩
    have hm' : Option.orElse (matchRE (.lit ((" ").data)) a₂
        (fun s2 => matchRE (.lit (("(talk)").data)) s2 some))
        (fun _ => matchRE (.lit (("(talk)").data)) a₂ some) = some res := hm
    cases hsp : matchRE (.lit ((" ").data)) a₂
        (fun s2 => matchRE (.lit (("(talk)").data)) s2 some) with
    | some x =>
      rw [hsp] at hm'
      rw [matchRE_lit_eq] at hsp
      by_cases hp : List.isPrefixOf ((" ").data) a₂
      · rw [if_pos hp] at hsp
        have : containsSub (("(talk)").data) s = true := by
          by_cases hq : List.isPrefixOf (("(talk)").data) (a₂.drop ((" ").data).length)
          · exact suffix_containsSub ((List.drop_suffix _ _).trans hsuf) hq
          · rw [matchRE_lit_eq, if_neg hq] at hsp
            exact absurd hsp (by simp)
        rw [this] at h
        exact absurd h (by decide)
      · rw [if_neg hp] at hsp
        exact absurd hsp (by simp)
    | none =>
      rw [hsp] at hm'
      have hm'' : matchRE (.lit (("(talk)").data)) a₂ some = some res := hm'
      rw [matchRE_lit_eq] at hm''
      by_cases hq : List.isPrefixOf (("(talk)").data) a₂
      · have : containsSub (("(talk)").data) s = true := suffix_containsSub hsuf hq
        simp [this] at h
      · rw [if_neg hq] at hm''
        exact absurd hm'' (by simp)

theorem stripAll_fixpoint {x : String} (hsig : sigTest x = false)
    (htalk : containsSub (("(talk)").data) x.data = false) :
    stripAll x = x := by
  have h4 : ∀ sig ∈ signatures, testRE sig x.data = false := by
    unfold sigTest at hsig
    exact fun sig hs => Bool.eq_false_iff.mpr
      (fun hc => List.any_eq_false.mp hsig sig hs hc)
  unfold stripAll stripAllL
  rw [show signatures.foldl (fun acc sig => replaceTop sig acc) x.data = x.data by
    rw [show signatures = [rollbackRE, undoRE, redwarnRE, twinkleRE] from rfl]
    simp only [List.foldl_cons, List.foldl_nil]
    rw [replaceTop_id (h4 rollbackRE (by simp [signatures])),
      replaceTop_id (h4 undoRE (by simp [signatures])),
      replaceTop_id (h4 redwarnRE (by simp [signatures])),
      replaceTop_id (h4 twinkleRE (by simp [signatures]))]]
  rw [cleanup_id htalk]

/-- C3 counterexample: `stripAll` is not idempotent.  For the summary
`"Reverted 1 edits by A  (talk)talk: x"` no signature matches, but the
`/ ?\(talk\)/g` cleanup deletes `" (talk)"` and thereby manufactures the
text `"Reverted 1 edits by A talk: x"`, which the (broken, unescaped)
Twinkle pattern of line 89 then matches, so a second application strips
everything down to `"x"`. -/
theorem c3_counterexample :
    stripAll (stripAll ("Reverted 1 edits by A  (talk)talk: x"))
      ≠ stripAll ("Reverted 1 edits by A  (talk)talk: x")
    ∧ stripAll ("Reverted 1 edits by A  (talk)talk: x")
      = ("Reverted 1 edits by A talk: x")
    ∧ stripAll (stripAll ("Reverted 1 edits by A  (talk)talk: x")) = ("x") := by
  exact ⟨by decide, by decide, by decide⟩

/-- C3 (amended): the claim is false in general (see the counterexample:
the cleanup can manufacture a fresh Twinkle-pattern match), and the
nearby true statement is: `stripAll` is idempotent on every summary whose
stripped form matches no signature and contains no `"(talk)"` — then
every signature removal and the cleanup are no-ops on the already
stripped string, so `stripAll (stripAll s) = stripAll s`. -/
theorem c3_conditional_idempotent (s : String)
    (hsig : sigTest (stripAll s) = false)
    (htalk : containsSub (("(talk)").data) (stripAll s).data = false) :
    stripAll (stripAll s) = stripAll s :=
  stripAll_fixpoint hsig htalk

/-- C3 witness: the amended theorem applied at a concrete input. -/
theorem c3_witness :
    stripAll (stripAll ("Undid revision 1 by A (talk) hello"))
      = stripAll ("Undid revision 1 by A (talk) hello") :=
  c3_conditional_idempotent ("Undid revision 1 by A (talk) hello")
    (by decide) (by decide)

theorem tryFrom_some {k : List Char → Option (List Char)} {s : List Char} :
    ∀ {is : List Nat} {res : List Char}, tryFrom k s is = some res →
      ∃ i, k (s.drop i) = some res := by
  intro is
  induction is with
  | nil => intro res h; simp [tryFrom] at h
  | cons i is ih =>
    intro res h
    unfold tryFrom at h
    cases hk : k (s.drop i) with
    | some r =>
      rw [hk] at h
      exact ⟨i, by rw [hk]; exact h⟩
    | none =>
      rw [hk] at h
      exact ih h

theorem matchRE_suffix_k :
    ∀ (r : RE) {s res : List Char} {k : List Char → Option (List Char)},
      matchRE r s k = some res → ∃ s', s' <:+ s ∧ k s' = some res := by
  intro r
  induction r with
  | eps =>
    intro s res k h
    exact ⟨s, List.suffix_refl s, h⟩
  | lit l =>
    intro s res k h
    rw [matchRE_lit_eq] at h
    by_cases hp : List.isPrefixOf l s
    · rw [if_pos hp] at h
      exact ⟨s.drop l.length, List.drop_suffix _ _, h⟩
    · rw [if_neg hp] at h
      exact absurd h (by simp)
  | cls1 p =>
    intro s res k h
    cases s with
    | nil => exact absurd h (by simp [matchRE])
    | cons c cs =>
      by_cases hp : p c
      · refine ⟨cs, List.suffix_cons c cs, ?_⟩
        simpa [matchRE, hp] using h
      · simp [matchRE, hp] at h
  | plusG p =>
    intro s res k h
    obtain ⟨i, hk⟩ := tryFrom_some h
    exact ⟨s.drop i, List.drop_suffix _ _, hk⟩
  | plusL p =>
    intro s res k h
    obtain ⟨i, hk⟩ := tryFrom_some h
    exact ⟨s.drop i, List.drop_suffix _ _, hk⟩
  | opt r ih =>
    intro s res k h
    cases hm : matchRE r s k with
    | some x =>
      have hx : x = res := by
        have h' : Option.orElse (matchRE r s k) (fun _ => k s) = some res := h
        rw [hm] at h'
        simpa using h'
      exact ih (hx ▸ hm)
    | none =>
      have h' : Option.orElse (matchRE r s k) (fun _ => k s) = some res := h
      rw [hm] at h'
      exact ⟨s, List.suffix_refl s, h'⟩
  | alt a b iha ihb =>
    intro s res k h
    cases hm : matchRE a s k with
    | some x =>
      have hx : x = res := by
        have h' : Option.orElse (matchRE a s k) (fun _ => matchRE b s k) = some res := h
        rw [hm] at h'
        simpa using h'
      exact iha (hx ▸ hm)
    | none =>
      have h' : Option.orElse (matchRE a s k) (fun _ => matchRE b s k) = some res := h
      rw [hm] at h'
      exact ihb h'
  | seq a b iha ihb =>
    intro s res k h
    obtain ⟨s1, hs1, h1⟩ := iha h
    obtain ⟨s2, hs2, h2⟩ := ihb h1
    exact ⟨s2, hs2.trans hs1, h2⟩
  | eos =>
    intro s res k h
    by_cases he : s.isEmpty
    · refine ⟨s, List.suffix_refl s, ?_⟩
      simpa [matchRE, he] using h
    · simp [matchRE, he] at h

theorem matchRE_seq_peel {a b : RE} {s res : List Char}
    (h : matchRE (.seq a b) s some = some res) :
    ∃ s', s' <:+ s ∧ matchRE b s' some = some res :=
  matchRE_suffix_k a h

theorem hasTalkColon_of_suffix {s' s : List Char} (hs : s' <:+ s)
    (h : talkColonAt s' = true) : hasTalkColon s = true := by
  obtain ⟨a₁, rfl⟩ := hs
  induction a₁ with
  | nil =>
    cases s' with
    | nil => exact absurd h (by decide)
    | cons c cs => simp [hasTalkColon, h]
  | cons c rest ih => simp [hasTalkColon, ih]

theorem twinkle_talkColon {s res : List Char}
    (h : matchRE twinkleRE s some = some res) : hasTalkColon s = true := by
  obtain ⟨s1, hs1, h1⟩ := matchRE_seq_peel h
  obtain ⟨s2, hs2, h2⟩ := matchRE_seq_peel h1
  obtain ⟨s3, hs3, h3⟩ := matchRE_seq_peel h2
  obtain ⟨s4, hs4, h4⟩ := matchRE_seq_peel h3
  obtain ⟨s5, hs5, h5⟩ := matchRE_seq_peel h4
  obtain ⟨s6, hs6, h6⟩ := matchRE_seq_peel h5
  obtain ⟨hp, halt⟩ := matchRE_seq_head_some h6
  have hsuf : s6 <:+ s :=
    hs6.trans (hs5.trans (hs4.trans (hs3.trans (hs2.trans hs1))))
  refine hasTalkColon_of_suffix hsuf ?_
  unfold talkColonAt
  rw [hp]
  simp only [Bool.true_and]
  have halt2 : Option.orElse
      (matchRE (.seq (.lit ((":").data)) (.opt (.lit ((" ").data))))
        (s6.drop (((" talk").data).length)) some)
      (fun _ => matchRE .eos (s6.drop (((" talk").data).length)) some) = some res := halt
  cases hm : matchRE (.seq (.lit ((":").data)) (.opt (.lit ((" ").data))))
      (s6.drop (((" talk").data).length)) some with
  | some x =>
    have hq := (matchRE_seq_head_some hm).1
    rw [show ((((" talk").data).length : Nat)) = 5 from rfl] at hq
    simp [hq]
  | none =>
    rw [hm] at halt2
    have he : (s6.drop (((" talk").data).length)).isEmpty = true := by
      by_contra hne
      simp only [Bool.not_eq_true] at hne
      have : matchRE .eos (s6.drop (((" talk").data).length)) some = none := by
        unfold matchRE
        rw [hne]
        simp
      rw [this] at halt2
      exact absurd halt2 (by simp)
    have he' : s6.drop 5 = [] := by
      rw [show (5 : Nat) = (((" talk").data).length) from rfl]
      exact List.isEmpty_iff.mp he
    simp [he']

theorem rollback_infix {s res : List Char}
    (h : matchRE rollbackRE s some = some res) :
    containsSub ((" to last version by ").data) s = true := by
  obtain ⟨s1, hs1, h1⟩ := matchRE_seq_peel h
  obtain ⟨s2, hs2, h2⟩ := matchRE_seq_peel h1
  obtain ⟨s3, hs3, h3⟩ := matchRE_seq_peel h2
  obtain ⟨s4, hs4, h4⟩ := matchRE_seq_peel h3
  obtain ⟨s5, hs5, h5⟩ := matchRE_seq_peel h4
  obtain ⟨s6, hs6, h6⟩ := matchRE_seq_peel h5
  have hp := (matchRE_seq_head_some h6).1
  have hsuf : s6 <:+ s :=
    hs6.trans (hs5.trans (hs4.trans (hs3.trans (hs2.trans hs1))))
  obtain ⟨z, hz⟩ := List.isPrefixOf_iff_prefix.mp hp
  obtain ⟨a₁, ha⟩ := hsuf
  have hdecomp : s = (a₁ ++ (" (talk)").data) ++ (((" to last version by ").data) ++ z) := by
    rw [← ha, ← hz]
    rw [show (" (talk) to last version by ").data
        = (" (talk)").data ++ (" to last version by ").data from by decide]
    simp [List.append_assoc]
  rw [hdecomp]
  exact containsSub_true_of _ _ _
    (isPrefixOf_append_of (List.isPrefixOf_iff_prefix.mpr (List.prefix_refl _)))

theorem undo_not_reverted (z : List Char) :
    testRE undoRE (("Reverted ").data ++ z) = false := rfl

theorem redwarn_not_reverted (z : List Char) :
    testRE redwarnRE (("Reverted ").data ++ z) = false := rfl

/-- C10 (amended): the implicit claim is false as stated — a reason that
itself ends in `" talk"` (or contains `" talk:"`) completes the broken
Twinkle pattern, so such a Twinkle-form summary does qualify (see the
counterexample).  The nearby true statement: for every summary of the
Twinkle form `"Reverted N edits by USER (talk): reason"` (digits `N`,
optional plural `s`, a parenthesized `(talk)` after the user name), with
no `" to last version by "` rollback tail anywhere in the summary and no
occurrence of the literal `" talk"` followed by a colon or the end of the
summary, classify returns NotQualifying: the Twinkle entry of line 89
spells `(talk)` without escaping the parentheses, so it is a capture
group matching the literal text `" talk"` and never matches the
parenthesized form, and no other signature matches this prefix. -/
theorem c10_twinkle_never_matches (pages : List String) (c : RecentChange)
    (N S U R : List Char)
    (hform : c.parsedcomment.data
      = ("Reverted ").data ++ (N ++ ((" edit").data ++ (S ++ ((" by ").data
        ++ (U ++ ((" (talk): ").data ++ R)))))))
    (hS : S = [] ∨ S = (("s").data))
    (hN : ∀ d ∈ N, d.isDigit = true)
    (hrb : containsSub ((" to last version by ").data) c.parsedcomment.data = false)
    (htc : hasTalkColon c.parsedcomment.data = false) :
    classify pages c = .notQualifying := by
  have hsig : sigTest c.parsedcomment = false := by
    unfold sigTest
    rw [show signatures = [rollbackRE, undoRE, redwarnRE, twinkleRE] from rfl]
    simp only [List.any_cons, List.any_nil, Bool.or_eq_false_iff]
    refine ⟨?_, ?_, ?_, ?_, trivial⟩
    · unfold testRE
      cases hm : matchRE rollbackRE c.parsedcomment.data some with
      | none => rfl
      | some res =>
        have hinf := rollback_infix hm
        rw [hrb] at hinf
        exact absurd hinf (by decide)
    · rw [hform]
      exact undo_not_reverted _
    · rw [hform]
      exact redwarn_not_reverted _
    · unfold testRE
      cases hm : matchRE twinkleRE c.parsedcomment.data some with
      | none => rfl
      | some res =>
        have htk := twinkle_talkColon hm
        rw [htc] at htk
        exact absurd htk (by decide)
  unfold classify
  split
  · rfl
  split
  · rfl
  split
  · rfl
  split
  · rfl
  rw [if_pos (by simp [hsig])]

/-- C10 counterexample: the summary
`"Reverted 2 edits by Foo (talk): see talk"` has exactly the Twinkle form
of the claim (digits `2`, user `Foo` with a parenthesized `(talk)`, no
rollback tail), yet classify returns Qualifying: the broken Twinkle
pattern matches because the reason ends in `" talk"` followed by the end
of the summary. -/
theorem c10_counterexample :
    ("Reverted 2 edits by Foo (talk): see talk").data
      = ("Reverted ").data ++ ((("2").data) ++ ((" edit").data ++ ((("s").data)
        ++ ((" by ").data ++ ((("Foo").data)
          ++ ((" (talk): ").data ++ (("see talk").data)))))))
    ∧ containsSub ((" to last version by ").data)
        ("Reverted 2 edits by Foo (talk): see talk").data = false
    ∧ classify [("Typhoon Rai")]
      { wiki := "enwiki", type := "edit", title := "Typhoon Rai",
        comment := "Reverted 2 edits by Foo (talk): see talk",
        parsedcomment := "Reverted 2 edits by Foo (talk): see talk",
        user := "UserF", revNew := 42 }
      = .qualifying ("UserF") ("Typhoon Rai") 42 ("")
    ∧ ClassificationResult.qualifying ("UserF") ("Typhoon Rai") 42 ("")
      ≠ .notQualifying := by
  exact ⟨by decide, by decide, by decide, by decide⟩

/-- C10 witness: the amended theorem applied at a concrete input. -/
theorem c10_witness :
    classify [("Typhoon Rai")]
      { wiki := "enwiki", type := "edit", title := "Typhoon Rai",
        comment := "Reverted 2 edits by Foo (talk): spam",
        parsedcomment := "Reverted 2 edits by Foo (talk): spam",
        user := "UserG", revNew := 43 } = .notQualifying :=
  c10_twinkle_never_matches [("Typhoon Rai")]
    { wiki := "enwiki", type := "edit", title := "Typhoon Rai",
      comment := "Reverted 2 edits by Foo (talk): spam",
      parsedcomment := "Reverted 2 edits by Foo (talk): spam",
      user := "UserG", revNew := 43 }
    (("2").data) (("s").data) (("Foo").data) (("spam").data)
    (by decide) (Or.inr rfl) (by decide) (by decide) (by decide)
